import Mathlib

/-!
Theme and localisation controller of `js/common.js`.

A shallow embedding of the script's functions as state transformers, followed by the
properties of the theme cycle and of the translation machinery.

Modelling conventions.

* `localStorage` is the pair of fields `theme` / `language`; `none` is the `null` that
  `getItem` returns for an absent entry.
* A plain JavaScript object is the association list of its own properties (`JsObj`) on top
  of `Object.prototype`.  A read `obj[k]` of a dictionary (`readProperty`) finds the own
  property first and the member of `Object.prototype` named `k` otherwise, so that
  `obj['constructor']` and `obj['__proto__']` are not `undefined`; a write `obj[k] = v`
  of a string (`assignProperty`) creates or overwrites an own property, except that the
  inherited setter `__proto__` swallows it.  `Object.prototype` is the standard one; how
  the engine prints a built-in function is a parameter of the environment.  Dictionaries
  are flat string-to-string JSON objects.
* The module object `translations` is read and written under language codes; it is
  modelled for codes that are not names of members of `Object.prototype`.
* The page is the document-ordered list of elements carrying `data-translate-key`
  (what `querySelectorAll('[data-translate-key]')` returns), plus the document title,
  the language selector, the theme widgets and the `div`s whose inline style contains
  `text-align: center`.  The tagged elements are leaves of the document: each contains
  text only, so none contains another tagged element, the selector or such a `div`.
  Tagged inputs and text areas are text controls whose `value` setter stores the string
  it is given.  The first option of the selector may be a tagged element
  (`Element.isAutoOption`); the options carry `value` attributes.  The element the width
  measurement writes to and the theme widgets are not tagged elements, and the theme
  widgets lie outside the centred `div`s.
* The document's title element is the first tagged `title` element when there is one;
  otherwise the title lives in `State.title`.
* `await fetch(...)` is a call into the environment (`Env.fetchResponse`), and every
  request is appended to `State.fetchLog`; one call of an asynchronous function runs to
  completion before the next one starts.
* A function of the script that can end in an uncaught `TypeError` returns an `Outcome`:
  the state it reached, and whether it returned or threw.
-/

namespace Common

/-! ## Strings and objects -/

/-- JavaScript `s.startsWith(p)`. -/
def startsWith (s p : String) : Bool :=
  p.data.isPrefixOf s.data

/-- Does the character list `p` occur as a contiguous block of `s`? -/
def includesChars (p : List Char) : List Char → Bool
  | [] => p.isPrefixOf []
  | c :: cs => p.isPrefixOf (c :: cs) || includesChars p cs

/-- JavaScript `s.includes(p)`. -/
def includes (s p : String) : Bool :=
  includesChars p.data s.data

/-- Truthiness of a possibly-null string: `null`, `undefined` and `''` are falsy. -/
def truthy : Option String → Bool
  | none => false
  | some v => decide (v ≠ "")

/-- JavaScript `a || d` for a possibly-undefined string `a` and a string `d`. -/
def orElse (a : Option String) (d : String) : String :=
  match a with
  | none => d
  | some v => if v = "" then d else v

/-- An object's own properties, in some order, one entry per key. -/
abbrev JsObj (β : Type) := List (String × β)

/-- The own property `k` of an object, `none` when the object has no such own property. -/
def JsObj.getOwn {β : Type} (o : JsObj β) (k : String) : Option β :=
  match o with
  | [] => none
  | (k', v) :: rest => if k' = k then some v else JsObj.getOwn rest k

/-- Create the own property `k`, or overwrite it when it exists. -/
def JsObj.setOwn {β : Type} (o : JsObj β) (k : String) (v : β) : JsObj β :=
  match o with
  | [] => [(k, v)]
  | (k', v') :: rest => if k' = k then (k, v) :: rest else (k', v') :: JsObj.setOwn rest k v

/-- A translation dictionary: a flat string-to-string JSON object. -/
abbrev Dict := JsObj String

/-- The function-valued members of `Object.prototype`: property name and function name. -/
def objectPrototypeFunctions : List (String × String) :=
  [("constructor", "Object"),
   ("__defineGetter__", "__defineGetter__"),
   ("__defineSetter__", "__defineSetter__"),
   ("hasOwnProperty", "hasOwnProperty"),
   ("__lookupGetter__", "__lookupGetter__"),
   ("__lookupSetter__", "__lookupSetter__"),
   ("isPrototypeOf", "isPrototypeOf"),
   ("propertyIsEnumerable", "propertyIsEnumerable"),
   ("toString", "toString"),
   ("valueOf", "valueOf"),
   ("toLocaleString", "toLocaleString")]

/-- What a property read yields when it is not `undefined`. -/
inductive PropertyValue where
  /-- An own string property. -/
  | own (v : String)
  /-- A member inherited from `Object.prototype`, with the string it converts to. -/
  | builtin (shown : String)
  deriving DecidableEq, Repr

/-- The string a property value becomes when it is written into the DOM or a template. -/
def PropertyValue.shown : PropertyValue → String
  | PropertyValue.own v => v
  | PropertyValue.builtin t => t

/-- JavaScript `a || d` for a property read `a` and a string `d`: built-in members are
objects or functions and hence truthy. -/
def orElseValue (a : Option PropertyValue) (d : String) : String :=
  match a with
  | none => d
  | some (PropertyValue.own v) => if v = "" then d else v
  | some (PropertyValue.builtin t) => t

/-! ## Data model -/

/-- One element carrying `data-translate-key`. -/
structure Element where
  /-- The value of `data-translate-key`. -/
  key : String
  /-- The `tagName`, upper case for HTML elements. -/
  tagName : String
  /-- The `aria-label` attribute, `none` when the element does not have it. -/
  ariaLabel : Option String
  /-- The `value` property (meaningful for inputs and text areas). -/
  value : String
  /-- The `textContent`. -/
  textContent : String
  /-- The outermost `div` with inline style `text-align: center` that this element is or
  lies in, if any. -/
  centredDiv : Option Nat
  /-- Whether this element is `options[0]` of `#language-select`. -/
  isAutoOption : Bool
  deriving DecidableEq, Repr

/-- The three icons inside `#themeToggle`; `none` when an icon is missing, otherwise
whether it carries the class `active`. -/
structure ThemeToggle where
  sunIcon : Option Bool
  moonIcon : Option Bool
  autoIcon : Option Bool
  deriving DecidableEq, Repr

/-- The `#language-select` drop-down. -/
structure LanguageSelect where
  /-- The `value` of each of its options, in order. -/
  optionValues : List String
  /-- The property `selectedIndex`; `none` is `-1`. -/
  selectedIndex : Option Nat
  /-- The text of `options[0]`, when that option is not a tagged element. -/
  autoOptionText : String
  /-- The outermost centred `div` the selector lies in, if any. -/
  centredDiv : Option Nat
  deriving DecidableEq, Repr

/-- What a `fetch` of a dictionary file can do. -/
inductive FetchResult where
  /-- An OK response whose body parses to the given dictionary. -/
  | ok (d : Dict)
  /-- A response with `response.ok` false (for instance 404). -/
  | notOk
  /-- The `fetch` promise rejects. -/
  | networkError
  /-- An OK response whose body is not valid JSON: `response.json()` rejects. -/
  | parseError
  deriving DecidableEq, Repr

/-- The browser environment the script reads but never writes. -/
structure Env where
  /-- The result of `matchMedia('(prefers-color-scheme: dark)').matches`. -/
  prefersDark : Bool
  /-- The result of `navigator.language || navigator.userLanguage`, a locale string. -/
  browserLang : String
  /-- The result of `window.location.pathname`. -/
  pathname : String
  /-- The server: what a request for each URL produces. -/
  fetchResponse : String → FetchResult
  /-- How the engine converts the built-in function of the given name to a string. -/
  nativeFunctionText : String → String

/-- Everything the script reads and writes. -/
structure State where
  /-- The entry `localStorage['theme']`. -/
  theme : Option String
  /-- The entry `localStorage['language']`. -/
  language : Option String
  /-- The list `document.documentElement.classList`. -/
  rootClassList : List String
  /-- The text of `#theme-icon`, when the element exists. -/
  themeIcon : Option String
  /-- The text of `#theme-text`, when the element exists. -/
  themeText : Option String
  /-- The element `#themeToggle`, when it exists. -/
  themeToggle : Option ThemeToggle
  /-- The tagged elements in document order. -/
  elements : List Element
  /-- The document title when no tagged `title` element exists. -/
  title : String
  /-- The element `#language-select`, when it exists. -/
  languageSelect : Option LanguageSelect
  /-- The outermost `div`s whose inline style contains `text-align: center`, in document
  order. -/
  centredDivs : List Nat
  /-- The module-level `translations` object. -/
  translations : JsObj Dict
  /-- The module-level `originalContent` object. -/
  originalContent : Dict
  /-- The URLs requested so far, oldest first. -/
  fetchLog : List String
  deriving DecidableEq, Repr

/-- How a call of a throwing function ends. -/
inductive Outcome where
  /-- The function returned; the state is the one it left. -/
  | done (s : State)
  /-- An uncaught `TypeError`; the state is the one reached when it was thrown. -/
  | thrown (s : State)
  deriving DecidableEq, Repr

/-- The state a call leaves behind, however it ended. -/
def Outcome.state : Outcome → State
  | Outcome.done s => s
  | Outcome.thrown s => s

/-! ## Property reads and writes -/

/-- The member of `Object.prototype` named `k`, as the string it converts to: the accessor
`__proto__` yields `Object.prototype` itself, the other members are built-in functions. -/
def inherited (env : Env) (k : String) : Option String :=
  if k = "__proto__" then some "[object Object]"
  else (JsObj.getOwn objectPrototypeFunctions k).map env.nativeFunctionText

/-- The read `obj[k]` on a dictionary: the own property, else the inherited member, else
`undefined`. -/
def readProperty (env : Env) (obj : Dict) (k : String) : Option PropertyValue :=
  match obj.getOwn k with
  | some v => some (PropertyValue.own v)
  | none => (inherited env k).map PropertyValue.builtin

/-- The read `obj[k]` as the string the script writes into the page when the value is not
`undefined`. -/
def readShown (env : Env) (obj : Dict) (k : String) : Option String :=
  (readProperty env obj k).map PropertyValue.shown

/-- The write `obj[k] = v` of a string on an object created by `{}`: an own property is
created or overwritten, unless `k` is `__proto__` and is not own, in which case the
inherited setter ignores the string. -/
def assignProperty (obj : Dict) (k v : String) : Dict :=
  if k = "__proto__" ∧ obj.getOwn k = none then obj else obj.setOwn k v

/-! ## Theme controller -/

/-- The method `classList.add(c)`. -/
def classAdd (cl : List String) (c : String) : List String :=
  if c ∈ cl then cl else cl ++ [c]

/-- The method `classList.remove(c)`. -/
def classRemove (cl : List String) (c : String) : List String :=
  cl.filter (fun x => decide (x ≠ c))

/-- The page-load initialiser (the immediately invoked function at the top of the file). -/
def themeInitializer (env : Env) (s : State) : State :=
  let savedTheme := s.theme
  if savedTheme = some "dark" then
    { s with rootClassList := classAdd s.rootClassList "dark-theme" }
  else if savedTheme = some "light" then
    { s with rootClassList := classAdd s.rootClassList "light-theme" }
  else if env.prefersDark then
    { s with rootClassList := classAdd s.rootClassList "dark-theme" }
  else
    { s with rootClassList := classAdd s.rootClassList "light-theme" }

/-- The icon part of `updateThemeDisplay`: clear `active` everywhere, then set it on the
icon of the given theme. -/
def updateToggleIcons (theme : String) (t : ThemeToggle) : ThemeToggle :=
  let cleared : ThemeToggle :=
    { sunIcon := t.sunIcon.map (fun _ => false)
      moonIcon := t.moonIcon.map (fun _ => false)
      autoIcon := t.autoIcon.map (fun _ => false) }
  if theme = "light" then
    { cleared with sunIcon := cleared.sunIcon.map (fun _ => true) }
  else if theme = "dark" then
    { cleared with moonIcon := cleared.moonIcon.map (fun _ => true) }
  else
    { cleared with autoIcon := cleared.autoIcon.map (fun _ => true) }

/-- The function `updateThemeDisplay(theme)`. -/
def updateThemeDisplay (theme : String) (s : State) : State :=
  let s1 : State := { s with themeToggle := s.themeToggle.map (updateToggleIcons theme) }
  match s1.themeIcon, s1.themeText with
  | some _, some _ =>
    if theme = "dark" then
      { s1 with themeIcon := some "🌙", themeText := some "深色模式" }
    else if theme = "light" then
      { s1 with themeIcon := some "☀️", themeText := some "浅色模式" }
    else
      { s1 with themeIcon := some "⚙️", themeText := some "跟随系统" }
  | _, _ => s1

/-- The function `updateThemeBySystem()`. -/
def updateThemeBySystem (env : Env) (s : State) : State :=
  let savedTheme := s.theme
  if savedTheme = some "auto" ∨ truthy savedTheme = false then
    if env.prefersDark then
      { s with rootClassList :=
          classRemove (classAdd s.rootClassList "dark-theme") "light-theme" }
    else
      { s with rootClassList :=
          classRemove (classAdd s.rootClassList "light-theme") "dark-theme" }
  else s

/-- The function `toggleTheme()`. -/
def toggleTheme (env : Env) (s : State) : State :=
  let currentTheme := s.theme
  let nextTheme : String :=
    if currentTheme = some "dark" then "light"
    else if currentTheme = some "light" then "auto"
    else "dark"
  let s1 : State := { s with theme := some nextTheme }
  let s2 : State :=
    if nextTheme = "dark" then
      { s1 with rootClassList :=
          classRemove (classAdd s1.rootClassList "dark-theme") "light-theme" }
    else if nextTheme = "light" then
      { s1 with rootClassList :=
          classRemove (classAdd s1.rootClassList "light-theme") "dark-theme" }
    else updateThemeBySystem env s1
  updateThemeDisplay nextTheme s2

/-- The function `initThemeDisplay()`; the listener it registers is `updateThemeBySystem`. -/
def initThemeDisplay (s : State) : State :=
  match s.theme with
  | some t => if t = "" then updateThemeDisplay "auto" s else updateThemeDisplay t s
  | none => updateThemeDisplay "auto" s

/-! ## Localisation controller -/

/-- The request URL of `loadLanguageConfig`: base path, language code, `.json`. -/
def localeUrl (env : Env) (lang : String) : String :=
  let basePath := if includes env.pathname "/pages/" then "../locales/" else "locales/"
  basePath ++ lang ++ ".json"

/-- The function `loadLanguageConfig(lang)`: one request for the dictionary file; any
failure yields the empty object. -/
def loadLanguageConfig (env : Env) (lang : String) (s : State) : Dict × State :=
  let url := localeUrl env lang
  let s1 : State := { s with fetchLog := s.fetchLog ++ [url] }
  match env.fetchResponse url with
  | FetchResult.ok d => (d, s1)
  | FetchResult.notOk => ([], s1)
  | FetchResult.networkError => ([], s1)
  | FetchResult.parseError => ([], s1)

/-- The function `getSystemLanguage()`. -/
def getSystemLanguage (env : Env) : String :=
  let browserLang := env.browserLang
  if startsWith browserLang "zh" then
    if includes browserLang "TW" || includes browserLang "tw"
        || includes browserLang "HK" || includes browserLang "hk" then
      "zh-tw"
    else
      "zh"
  else
    "zh"

/-- The function `getCurrentLanguage()`. -/
def getCurrentLanguage (env : Env) (s : State) : String :=
  let savedLang := s.language
  if savedLang = some "auto" ∨ truthy savedLang = false then
    getSystemLanguage env
  else
    savedLang.getD ""

/-- The five values `changeLanguage` and `handleLanguageChange` accept. -/
def languageOptions : List String := ["auto", "zh", "zh-tw", "en", "wyw"]

/-- The test `element.tagName === 'INPUT' || element.tagName === 'TEXTAREA'`. -/
def isFormField (e : Element) : Bool :=
  decide (e.tagName = "INPUT") || decide (e.tagName = "TEXTAREA")

/-- The three-way read of `saveOriginalContent`: `value`, else `aria-label`, else
`textContent`. -/
def readContent (e : Element) : String :=
  if isFormField e then e.value
  else match e.ariaLabel with
    | some a => a
    | none => e.textContent

/-- The three-way write of `applyTranslation`: `value`, else `aria-label`, else
`textContent`. -/
def writeContent (e : Element) (v : String) : Element :=
  if isFormField e then { e with value := v }
  else match e.ariaLabel with
    | some _ => { e with ariaLabel := some v }
    | none => { e with textContent := v }

/-- The body of both `forEach` loops of `applyTranslation`: write `obj[key]` when it is
not `undefined`; `reader` is the read `obj[·]`. -/
def applyEntry (reader : String → Option String) (e : Element) : Element :=
  match reader e.key with
  | some v => writeContent e v
  | none => e

/-- The query `document.querySelector('title[data-translate-key]')`. -/
def titleElement (s : State) : Option Element :=
  s.elements.find? (fun e => decide (e.tagName = "TITLE"))

/-- Replace the text of the first `title` element of the list. -/
def setFirstTitle (v : String) : List Element → List Element
  | [] => []
  | e :: es =>
    if e.tagName = "TITLE" then { e with textContent := v } :: es
    else e :: setFirstTitle v es

/-- The getter `document.title`: the text of the document's title element (the getter's
white-space normalisation is not represented). -/
def documentTitle (s : State) : String :=
  match titleElement s with
  | some te => te.textContent
  | none => s.title

/-- The setter `document.title = v`: replaces the text of the document's title element. -/
def setDocumentTitle (v : String) (s : State) : State :=
  match titleElement s with
  | some _ => { s with elements := setFirstTitle v s.elements }
  | none => { s with title := v }

/-- The write `languageSelect.options[0].text = t` as far as it lands in a tagged element:
the first element that is the selector's first option gets the text. -/
def setFirstAutoOption (t : String) : List Element → List Element
  | [] => []
  | e :: es =>
    if e.isAutoOption = true then { e with textContent := t } :: es
    else e :: setFirstAutoOption t es

/-- The index of the first option whose value is `v`. -/
def indexOfValue (v : String) : List String → Option Nat
  | [] => none
  | x :: xs => if x = v then some 0 else (indexOfValue v xs).map (· + 1)

/-- The getter `select.value`: the value of the selected option, `''` when none is. -/
def selectValue (sel : LanguageSelect) : String :=
  match sel.selectedIndex with
  | some i => (sel.optionValues[i]?).getD ""
  | none => ""

/-- The setter `select.value = v`: selects the first option with that value, or none. -/
def setSelectValue (sel : LanguageSelect) (v : String) : LanguageSelect :=
  { sel with selectedIndex := indexOfValue v sel.optionValues }

/-- The function `adjustLanguageSelectWidth()`.  It throws when `#language-select` is
missing or when no option is selected (`select.options[-1]` is `undefined`); otherwise it
only measures a helper element and sets a pixel width, which is not represented. -/
def adjustLanguageSelectWidth (s : State) : Outcome :=
  match s.languageSelect with
  | none => Outcome.thrown s
  | some sel =>
    match sel.selectedIndex with
    | none => Outcome.thrown s
    | some i => if i < sel.optionValues.length then Outcome.done s else Outcome.thrown s

/-- The function `updateAutoOptionText()`.  It throws at `options[0].text = ...` when the
selector has no option, and its final `adjustLanguageSelectWidth()` may throw. -/
def updateAutoOptionText (env : Env) (s : State) : Outcome :=
  match s.languageSelect with
  | none => Outcome.done s
  | some sel =>
    let savedLang := orElse s.language "auto"
    let systemLang := getSystemLanguage env
    let systemLangName : String :=
      if savedLang = "zh" then
        if systemLang = "zh" then "简体中文"
        else if systemLang = "zh-tw" then "繁體中文" else "English"
      else
        let uiTranslation : Dict := (s.translations.getOwn savedLang).getD []
        if systemLang = "zh" then
          orElseValue (readProperty env uiTranslation "language_zh") "简体中文"
        else if systemLang = "zh-tw" then
          orElseValue (readProperty env uiTranslation "language_zh_tw") "繁體中文"
        else orElseValue (readProperty env uiTranslation "language_en") "English"
    let label (l : String) (d : String) : String :=
      orElseValue ((s.translations.getOwn l).bind (fun t => readProperty env t "auto_language")) d
    let autoLabel : String :=
      if savedLang = "en" then label "en" "auto"
      else if savedLang = "zh-tw" then label "zh-tw" "自動"
      else if savedLang = "wyw" then label "wyw" "自動"
      else "自动"
    if sel.optionValues = [] then Outcome.thrown s
    else
      let text := autoLabel ++ " (" ++ systemLangName ++ ")"
      let sel1 : LanguageSelect :=
        if s.elements.any (fun e => e.isAutoOption) then sel
        else { sel with autoOptionText := text }
      let currentValue := selectValue sel1
      let sel2 := setSelectValue sel1 currentValue
      adjustLanguageSelectWidth
        { s with elements := setFirstAutoOption text s.elements, languageSelect := some sel2 }

/-- The function `saveOriginalContent()`. -/
def saveOriginalContent (s : State) : State :=
  let oc0 : Dict := []
  let oc1 : Dict :=
    match titleElement s with
    | some te => assignProperty oc0 te.key (documentTitle s)
    | none => assignProperty oc0 "pageTitle" (documentTitle s)
  let oc2 : Dict := s.elements.foldl (fun oc e => assignProperty oc e.key (readContent e)) oc1
  { s with originalContent := oc2 }

/-- The title block of the `zh` branch of `applyTranslation`: restore `document.title` from
the snapshot, through the tagged `title` element's key or the legacy `pageTitle` entry. -/
def restoreTitle (env : Env) (s : State) : State :=
  match titleElement s with
  | some te =>
    match readShown env s.originalContent te.key with
    | some v => setDocumentTitle v s
    | none => s
  | none =>
    setDocumentTitle ((readShown env s.originalContent "pageTitle").getD "undefined") s

/-- The title block of the other branch of `applyTranslation`: set `document.title` from
the dictionary, through the tagged `title` element's key or the legacy `page_title` entry
with its hard-coded default. -/
def translateTitle (env : Env) (translation : Dict) (s : State) : State :=
  match titleElement s with
  | some te =>
    match readShown env translation te.key with
    | some v => setDocumentTitle v s
    | none => s
  | none =>
    let defaultTitle :=
      if includes env.pathname "/pages/" then "关于 About" else "地址发布页 Address Page"
    setDocumentTitle (orElseValue (readProperty env translation "page_title") defaultTitle) s

/-- The loop `elements.forEach(...)` of either branch of `applyTranslation`, over the
object `obj`. -/
def forEachElement (env : Env) (obj : Dict) (s : State) : State :=
  { s with elements := s.elements.map (applyEntry (readShown env obj)) }

/-- The function `applyTranslation(lang)`.  The optional page hook
`updateSearchPlaceholder` is not defined by this script and is taken as absent. -/
def applyTranslation (env : Env) (lang : String) (s : State) : Outcome :=
  if lang = "zh" then
    let s2 : State :=
      if s.originalContent.length > 0 then
        let s1 := restoreTitle env s
        forEachElement env s1.originalContent s1
      else s
    updateAutoOptionText env s2
  else
    match s.translations.getOwn lang with
    | none => Outcome.done s
    | some translation =>
      let s1 := forEachElement env translation s
      let s2 := translateTitle env translation s1
      updateAutoOptionText env s2

/-- The function `addAITranslationNote()`, which this script defines with an empty body. -/
def addAITranslationNote (s : State) : State := s

/-- Is the element the first centred `div` of the document, or inside it? -/
def inFirstCentredDiv (s : State) (e : Element) : Bool :=
  match s.centredDivs with
  | [] => false
  | d :: _ => decide (e.centredDiv = some d)

/-- Is the element outside the first centred `div` of the document? -/
def outsideFirstCentredDiv (s : State) (e : Element) : Bool :=
  !inFirstCentredDiv s e

/-- Is the element outside the first centred `div` of the document and not the selector's
first option? -/
def isPlain (s : State) (e : Element) : Bool :=
  outsideFirstCentredDiv s e && !e.isAutoOption

/-- The step `existingNote.remove()` of `changeLanguage`: the first centred `div` of the
document leaves it with everything inside. -/
def removeExistingNote (s : State) : State :=
  match s.centredDivs with
  | [] => s
  | d :: rest =>
    { s with
        centredDivs := rest
        elements := s.elements.filter (outsideFirstCentredDiv s)
        languageSelect := s.languageSelect.filter (fun sel => decide (sel.centredDiv ≠ some d)) }

/-- The expression `lang === 'auto' ? getSystemLanguage() : lang` of `changeLanguage`. -/
def resolveLanguage (env : Env) (lang : String) : String :=
  if lang = "auto" then getSystemLanguage env else lang

/-- The loading block of `changeLanguage`: unless the language is `zh`, fetch its
dictionary and store it in `translations`. -/
def loadUnlessZh (env : Env) (currentLang : String) (s : State) : State :=
  if currentLang ≠ "zh" then
    let r := loadLanguageConfig env currentLang s
    { r.2 with translations := r.2.translations.setOwn currentLang r.1 }
  else s

/-- The selector block of `changeLanguage`: set the selector's value, then adjust its
width. -/
def updateLanguageSelect (lang : String) (s : State) : Outcome :=
  match s.languageSelect with
  | some sel => adjustLanguageSelectWidth { s with languageSelect := some (setSelectValue sel lang) }
  | none => Outcome.done s

/-- The tail of `changeLanguage` after `applyTranslation` has returned: the selector block,
then the removal of the existing note and the call of `addAITranslationNote`. -/
def finishChangeLanguage (lang currentLang : String) (s : State) : Outcome :=
  match updateLanguageSelect lang s with
  | Outcome.thrown s4 => Outcome.thrown s4
  | Outcome.done s4 =>
    let s5 := removeExistingNote s4
    if currentLang ≠ "zh" ∧ currentLang ≠ "zh-tw" ∧ currentLang ≠ "wyw" then
      Outcome.done (addAITranslationNote s5)
    else Outcome.done s5

/-- The function `changeLanguage(lang)`.  An exception in `applyTranslation` or in the
selector block ends the call before the note is handled. -/
def changeLanguage (env : Env) (lang : String) (s : State) : Outcome :=
  if lang ∈ languageOptions then
    let s1 : State := { s with language := some lang }
    let currentLang := resolveLanguage env lang
    let s2 : State := loadUnlessZh env currentLang s1
    match applyTranslation env currentLang s2 with
    | Outcome.thrown s3 => Outcome.thrown s3
    | Outcome.done s3 => finishChangeLanguage lang currentLang s3
  else Outcome.done s

/-- The function `initializeTranslations()`.  A stored language `__proto__` would replace
the prototype of `translations` and lies outside the model. -/
def initializeTranslations (env : Env) (s : State) : Outcome :=
  let currentLang := getCurrentLanguage env s
  let r := loadLanguageConfig env currentLang s
  let s1 : State := { r.2 with translations := r.2.translations.setOwn currentLang r.1 }
  applyTranslation env currentLang s1

/-- The function `handleLanguageChange(lang)`. -/
def handleLanguageChange (env : Env) (lang : String) (s : State) : Outcome :=
  if lang ∈ languageOptions then changeLanguage env lang s else Outcome.done s

/-! ## Sample pages -/

/-- A sample environment: light OS theme, English browser, index page, no server files,
built-in functions printed on one line. -/
def env0 : Env :=
  { prefersDark := false, browserLang := "en-US", pathname := "/index.html",
    fetchResponse := fun _ => FetchResult.notOk,
    nativeFunctionText := fun n => "function " ++ n ++ "() \x7b [native code] \x7d" }

/-- A sample empty page. -/
def state0 : State :=
  { theme := none, language := none, rootClassList := [], themeIcon := none,
    themeText := none, themeToggle := none, elements := [], title := "", languageSelect := none,
    centredDivs := [], translations := [], originalContent := [], fetchLog := [] }

/-- A plain text element outside any centred `div`. -/
def textEl (k t : String) : Element :=
  { key := k, tagName := "SPAN", ariaLabel := none, value := "", textContent := t,
    centredDiv := none, isAutoOption := false }

/-- A sample server that has the English dictionary and nothing else. -/
def envEn : Env :=
  { env0 with fetchResponse := fun url =>
      if url = "locales/en.json" then FetchResult.ok [("greeting", "Hello")]
      else FetchResult.notOk }

/-- A sample page with one tagged greeting. -/
def pageGreeting : State :=
  { state0 with elements := [textEl "greeting" "你好"], title := "地址发布页" }

/-- A sample page on which two tagged elements share a key but not their text, with an
English dictionary already loaded. -/
def pageDuplicate : State :=
  { state0 with elements := [textEl "k" "A", textEl "k" "B"],
                translations := [("en", [("k", "X")])] }

/-- A sample page with a tagged title, a tagged input, a tagged button with an
`aria-label`, and a tagged paragraph whose key the loaded English dictionary lacks. -/
def pageMixed : State :=
  { state0 with
      elements :=
        [{ key := "page_title", tagName := "TITLE", ariaLabel := none, value := "",
           textContent := "地址发布页", centredDiv := none, isAutoOption := false },
         { key := "search", tagName := "INPUT", ariaLabel := none, value := "搜索",
           textContent := "", centredDiv := none, isAutoOption := false },
         { key := "close", tagName := "BUTTON", ariaLabel := some "关闭", value := "",
           textContent := "×", centredDiv := none, isAutoOption := false },
         textEl "footer" "页脚"],
      translations := [("en", [("page_title", "Address Page"), ("search", "Search"),
                               ("close", "Close")])] }

/-- The greeting page with a dictionary for English already in the cache. -/
def pageCachedEn : State :=
  { pageGreeting with translations := [("en", [("greeting", "Hi")])] }

/-- The greeting page with the stored language preference `zh`. -/
def pageZh : State :=
  { pageGreeting with language := some "zh" }

/-- A sample page whose only tagged element has the key `constructor`, with an English
dictionary loaded that has no such entry. -/
def pageConstructor : State :=
  { state0 with elements := [textEl "constructor" "原文"],
                translations := [("en", [("greeting", "Hello")])] }

/-- The greeting page with a second copy of the greeting inside a centred `div`, and a
selector that offers all five languages. -/
def pageNote : State :=
  { state0 with
      elements := [{ textEl "greeting" "你好" with centredDiv := some 1 }, textEl "greeting" "你好",
                   textEl "toString" "文本"],
      centredDivs := [1],
      languageSelect := some { optionValues := ["auto", "zh", "zh-tw", "en", "wyw"],
                               selectedIndex := some 0, autoOptionText := "自动",
                               centredDiv := none } }

/-- A sample page whose selector's first option is a tagged element, with an English
dictionary loaded that has no entry for its key. -/
def pageAutoOption : State :=
  { state0 with
      elements := [{ key := "auto_label", tagName := "OPTION", ariaLabel := none, value := "",
                     textContent := "自动", centredDiv := none, isAutoOption := true },
                   textEl "greeting" "你好"],
      languageSelect := some { optionValues := ["auto", "zh", "zh-tw", "en", "wyw"],
                               selectedIndex := some 0, autoOptionText := "",
                               centredDiv := none },
      translations := [("en", [("greeting", "Hello")])] }

/-- What it means for `m` to be the element `e` after the title block and the loop of
`applyTranslation`, before the selector is updated: same key, kind and place, content
`obj[key]` when that is not `undefined`, and the very same element when it is. -/
def Rewritten (reader : String → Option String) (e m : Element) : Prop :=
  m.key = e.key ∧ m.tagName = e.tagName ∧ m.ariaLabel.isSome = e.ariaLabel.isSome ∧
  m.centredDiv = e.centredDiv ∧ m.isAutoOption = e.isAutoOption ∧
  readContent m = (reader e.key).getD (readContent e) ∧
  (reader e.key = none → m = e)

/-- What it means for `e'` to be the element `e` after a pass of `applyTranslation` whose
object is read through `reader`: same key, kind and place, and, unless the element is the
selector's first option, content `obj[key]` when that is not `undefined` and the very same
element when it is. -/
def Translated (reader : String → Option String) (e e' : Element) : Prop :=
  e'.key = e.key ∧ e'.tagName = e.tagName ∧ e'.ariaLabel.isSome = e.ariaLabel.isSome ∧
  e'.centredDiv = e.centredDiv ∧ e'.isAutoOption = e.isAutoOption ∧
  (e.isAutoOption = false →
    readContent e' = (reader e.key).getD (readContent e) ∧
    (reader e.key = none → e' = e))

/-! ## Objects: lemmas -/

theorem JsObj.getOwn_setOwn {β : Type} (o : JsObj β) (k k' : String) (v : β) :
    (o.setOwn k v).getOwn k' = if k = k' then some v else o.getOwn k' := by
  induction o with
  | nil => simp [JsObj.setOwn, JsObj.getOwn]
  | cons p rest ih =>
    obtain ⟨a, b⟩ := p
    by_cases h : a = k
    · subst h
      by_cases h2 : a = k' <;> simp [JsObj.setOwn, JsObj.getOwn, h2]
    · by_cases h2 : k = k'
      · subst h2
        simp [JsObj.setOwn, JsObj.getOwn, h, ih]
      · by_cases h3 : a = k'
        · subst h3
          simp [JsObj.setOwn, JsObj.getOwn, h, h2]
        · simp [JsObj.setOwn, JsObj.getOwn, h, h2, h3, ih]

theorem JsObj.setOwn_ne_nil {β : Type} (o : JsObj β) (k : String) (v : β) :
    o.setOwn k v ≠ [] := by
  cases o with
  | nil => simp [JsObj.setOwn]
  | cons p rest =>
    obtain ⟨a, b⟩ := p
    by_cases h : a = k <;> simp [JsObj.setOwn, h]

/-- Away from `__proto__` an assignment is an own-property write. -/
theorem assignProperty_of_ne (obj : Dict) (k v : String) (hk : k ≠ "__proto__") :
    assignProperty obj k v = obj.setOwn k v := by
  unfold assignProperty
  rw [if_neg (fun h => hk h.1)]

/-- An assignment never empties an object. -/
theorem assignProperty_ne_nil (obj : Dict) (k v : String) (h : obj ≠ []) :
    assignProperty obj k v ≠ [] := by
  unfold assignProperty
  split
  · exact h
  · exact JsObj.setOwn_ne_nil _ _ _

/-- An own property is what a read finds. -/
theorem readShown_of_own (env : Env) (obj : Dict) (k v : String) (h : obj.getOwn k = some v) :
    readShown env obj k = some v := by
  simp [readShown, readProperty, h, PropertyValue.shown]

/-- A read of the empty object yields the inherited member. -/
theorem readShown_nil (env : Env) (k : String) : readShown env [] k = inherited env k := by
  unfold readShown readProperty
  simp only [JsObj.getOwn]
  cases inherited env k <;> simp [PropertyValue.shown]

/-! ## Theme controller: lemmas -/

theorem mem_classAdd (cl : List String) (c x : String) :
    x ∈ classAdd cl c ↔ x ∈ cl ∨ x = c := by
  unfold classAdd
  split
  · constructor
    · intro h; exact Or.inl h
    · rintro (h | h)
      · exact h
      · subst h; assumption
  · simp

theorem mem_classRemove (cl : List String) (c x : String) :
    x ∈ classRemove cl c ↔ x ∈ cl ∧ x ≠ c := by
  simp [classRemove]

theorem updateThemeDisplay_theme (t : String) (s : State) :
    (updateThemeDisplay t s).theme = s.theme := by
  unfold updateThemeDisplay
  dsimp only
  split
  · split_ifs <;> rfl
  · rfl

theorem updateThemeDisplay_rootClassList (t : String) (s : State) :
    (updateThemeDisplay t s).rootClassList = s.rootClassList := by
  unfold updateThemeDisplay
  dsimp only
  split
  · split_ifs <;> rfl
  · rfl

theorem updateThemeBySystem_theme (env : Env) (s : State) :
    (updateThemeBySystem env s).theme = s.theme := by
  unfold updateThemeBySystem
  dsimp only
  split_ifs <;> rfl

/-- The preference `toggleTheme` stores, as a function of the one it finds. -/
theorem toggleTheme_theme (env : Env) (s : State) :
    (toggleTheme env s).theme =
      some (if s.theme = some "dark" then "light"
            else if s.theme = some "light" then "auto" else "dark") := by
  unfold toggleTheme
  dsimp only
  rw [updateThemeDisplay_theme]
  split_ifs <;> first | rfl | (rw [updateThemeBySystem_theme])

/-- The root classes after `toggleTheme`, by membership. -/
theorem mem_toggleTheme_rootClassList (env : Env) (s : State) (x : String) :
    x ∈ (toggleTheme env s).rootClassList ↔
      if s.theme = some "dark" then (x ∈ s.rootClassList ∨ x = "light-theme") ∧ x ≠ "dark-theme"
      else if s.theme = some "light" then
        (if env.prefersDark = true then
          (x ∈ s.rootClassList ∨ x = "dark-theme") ∧ x ≠ "light-theme"
         else (x ∈ s.rootClassList ∨ x = "light-theme") ∧ x ≠ "dark-theme")
      else (x ∈ s.rootClassList ∨ x = "dark-theme") ∧ x ≠ "light-theme" := by
  unfold toggleTheme
  dsimp only
  rw [updateThemeDisplay_rootClassList]
  by_cases h1 : s.theme = some "dark"
  · simp [h1, mem_classRemove, mem_classAdd]
  · by_cases h2 : s.theme = some "light"
    · by_cases h3 : env.prefersDark = true
      · simp [h2, h3, updateThemeBySystem, mem_classRemove, mem_classAdd]
      · simp [h2, h3, updateThemeBySystem, mem_classRemove, mem_classAdd]
    · simp [h1, h2, mem_classRemove, mem_classAdd]

/-! ## Localisation controller: lemmas -/

theorem adjustLanguageSelectWidth_state (s : State) :
    (adjustLanguageSelectWidth s).state = s := by
  unfold adjustLanguageSelectWidth
  split
  · rfl
  · split
    · rfl
    · split <;> rfl

/-- The function `updateAutoOptionText` touches the selector and the text of its first
option only. -/
theorem updateAutoOptionText_frame (env : Env) (s : State) :
    (updateAutoOptionText env s).state.translations = s.translations ∧
    (updateAutoOptionText env s).state.originalContent = s.originalContent ∧
    (updateAutoOptionText env s).state.fetchLog = s.fetchLog ∧
    (updateAutoOptionText env s).state.language = s.language ∧
    (updateAutoOptionText env s).state.centredDivs = s.centredDivs := by
  unfold updateAutoOptionText
  split
  · exact ⟨rfl, rfl, rfl, rfl, rfl⟩
  · dsimp only
    split
    · exact ⟨rfl, rfl, rfl, rfl, rfl⟩
    · rw [adjustLanguageSelectWidth_state]
      exact ⟨rfl, rfl, rfl, rfl, rfl⟩

theorem setFirstAutoOption_rel (t : String) (l : List Element) :
    List.Forall₂
      (fun m e' => e' = m ∨ (m.isAutoOption = true ∧ e' = { m with textContent := t }))
      l (setFirstAutoOption t l) := by
  induction l with
  | nil => exact List.Forall₂.nil
  | cons e es ih =>
    unfold setFirstAutoOption
    by_cases h : e.isAutoOption = true
    · rw [if_pos h]
      exact List.Forall₂.cons (Or.inr ⟨h, rfl⟩)
        (List.forall₂_same.mpr (fun x _ => Or.inl rfl))
    · rw [if_neg h]
      exact List.Forall₂.cons (Or.inl rfl) ih

/-- Among the tagged elements, `updateAutoOptionText` changes at most the text of one that
is the selector's first option. -/
theorem updateAutoOptionText_rel (env : Env) (s : State) :
    List.Forall₂
      (fun m e' => e' = m ∨ (m.isAutoOption = true ∧ ∃ t, e' = { m with textContent := t }))
      s.elements (updateAutoOptionText env s).state.elements := by
  unfold updateAutoOptionText
  split
  · exact List.forall₂_same.mpr (fun x _ => Or.inl rfl)
  · dsimp only
    split
    · exact List.forall₂_same.mpr (fun x _ => Or.inl rfl)
    · rw [adjustLanguageSelectWidth_state]
      refine (setFirstAutoOption_rel _ s.elements).imp ?_
      rintro m e' (h | ⟨h1, h2⟩)
      · exact Or.inl h
      · exact Or.inr ⟨h1, _, h2⟩

theorem writeContent_key (e : Element) (v : String) : (writeContent e v).key = e.key := by
  unfold writeContent
  split
  · rfl
  · split <;> rfl

theorem writeContent_tagName (e : Element) (v : String) :
    (writeContent e v).tagName = e.tagName := by
  unfold writeContent
  split
  · rfl
  · split <;> rfl

theorem writeContent_centredDiv (e : Element) (v : String) :
    (writeContent e v).centredDiv = e.centredDiv := by
  unfold writeContent
  split
  · rfl
  · split <;> rfl

theorem writeContent_isAutoOption (e : Element) (v : String) :
    (writeContent e v).isAutoOption = e.isAutoOption := by
  unfold writeContent
  split
  · rfl
  · split <;> rfl

theorem writeContent_ariaLabel_isSome (e : Element) (v : String) :
    (writeContent e v).ariaLabel.isSome = e.ariaLabel.isSome := by
  unfold writeContent
  split
  · rfl
  · split
    · next h => simp [h]
    · rfl

theorem readContent_writeContent (e : Element) (v : String) :
    readContent (writeContent e v) = v := by
  unfold writeContent readContent
  by_cases h : isFormField e = true
  · simp [h, isFormField] at *
    simp [h]
  · cases ha : e.ariaLabel <;> simp [h, ha, isFormField] at * <;> simp [h, ha]

/-- Overwriting `textContent` before the three-way write does not change what the write
leaves as content. -/
theorem readContent_writeContent_text (e : Element) (v w : String) :
    readContent (writeContent { e with textContent := w } v) = v :=
  readContent_writeContent _ v

/-- Overwriting `textContent` with the same string after the three-way write does not
change the content either. -/
theorem readContent_text_writeContent (e : Element) (v : String) :
    readContent { writeContent e v with textContent := v } = v := by
  unfold writeContent readContent
  by_cases h : isFormField e = true
  · simp [h, isFormField] at *
    simp [h]
  · cases ha : e.ariaLabel <;> simp [h, ha, isFormField] at * <;> simp [h, ha]

theorem rewritten_applyEntry (reader : String → Option String) (e : Element) :
    Rewritten reader e (applyEntry reader e) := by
  unfold Rewritten applyEntry
  cases h : reader e.key with
  | none => simp
  | some v =>
    simp [writeContent_key, writeContent_tagName, writeContent_ariaLabel_isSome,
      writeContent_centredDiv, writeContent_isAutoOption, readContent_writeContent]

/-- Setting the document title after the loop, to the same `obj[key]` the loop wrote. -/
theorem rewritten_applyEntry_then_title (reader : String → Option String) (e : Element)
    (v : String) (h : reader e.key = some v) :
    Rewritten reader e { applyEntry reader e with textContent := v } := by
  unfold Rewritten applyEntry
  simp only [h]
  refine ⟨writeContent_key e v, writeContent_tagName e v, writeContent_ariaLabel_isSome e v,
    writeContent_centredDiv e v, writeContent_isAutoOption e v, ?_, ?_⟩
  · simpa using readContent_text_writeContent e v
  · intro hn; cases hn

/-- Setting the document title before the loop, to the same `obj[key]` the loop writes. -/
theorem rewritten_title_then_applyEntry (reader : String → Option String) (e : Element)
    (v : String) (h : reader e.key = some v) :
    Rewritten reader e (applyEntry reader { e with textContent := v }) := by
  unfold Rewritten applyEntry
  simp only [h]
  refine ⟨?_, ?_, ?_, ?_, ?_, ?_, ?_⟩
  · rw [writeContent_key]
  · rw [writeContent_tagName]
  · rw [writeContent_ariaLabel_isSome]
  · rw [writeContent_centredDiv]
  · rw [writeContent_isAutoOption]
  · simpa using readContent_writeContent_text e v v
  · intro hn; cases hn

/-- The setter `document.title = v` touches at most the first tagged `title` element. -/
theorem setFirstTitle_rel (P : Element → Prop) (v : String) (l : List Element)
    (hP : ∀ te, l.find? (fun e => decide (e.tagName = "TITLE")) = some te → P te) :
    List.Forall₂ (fun e e' => e' = e ∨ (P e ∧ e' = { e with textContent := v }))
      l (setFirstTitle v l) := by
  induction l with
  | nil => exact List.Forall₂.nil
  | cons e es ih =>
    unfold setFirstTitle
    by_cases h : e.tagName = "TITLE"
    · rw [if_pos h]
      refine List.Forall₂.cons (Or.inr ⟨hP e (by simp [List.find?, h]), rfl⟩) ?_
      exact List.forall₂_same.mpr (fun x _ => Or.inl rfl)
    · rw [if_neg h]
      refine List.Forall₂.cons (Or.inl rfl) (ih ?_)
      intro te hte
      exact hP te (by simpa [List.find?, h] using hte)

theorem setDocumentTitle_frame (v : String) (s : State) :
    (setDocumentTitle v s).translations = s.translations ∧
    (setDocumentTitle v s).originalContent = s.originalContent ∧
    (setDocumentTitle v s).fetchLog = s.fetchLog ∧
    (setDocumentTitle v s).language = s.language ∧
    (setDocumentTitle v s).centredDivs = s.centredDivs := by
  unfold setDocumentTitle
  cases titleElement s <;> simp

theorem setDocumentTitle_elements (v : String) (s : State) :
    (setDocumentTitle v s).elements =
      if (titleElement s).isSome then setFirstTitle v s.elements else s.elements := by
  unfold setDocumentTitle
  cases titleElement s <;> simp

theorem restoreTitle_frame (env : Env) (s : State) :
    (restoreTitle env s).translations = s.translations ∧
    (restoreTitle env s).originalContent = s.originalContent ∧
    (restoreTitle env s).fetchLog = s.fetchLog ∧
    (restoreTitle env s).language = s.language ∧
    (restoreTitle env s).centredDivs = s.centredDivs := by
  unfold restoreTitle
  split
  · split
    · exact setDocumentTitle_frame _ s
    · exact ⟨rfl, rfl, rfl, rfl, rfl⟩
  · exact setDocumentTitle_frame _ s

theorem translateTitle_frame (env : Env) (tr : Dict) (s : State) :
    (translateTitle env tr s).translations = s.translations ∧
    (translateTitle env tr s).originalContent = s.originalContent ∧
    (translateTitle env tr s).fetchLog = s.fetchLog ∧
    (translateTitle env tr s).language = s.language ∧
    (translateTitle env tr s).centredDivs = s.centredDivs := by
  unfold translateTitle
  split
  · split
    · exact setDocumentTitle_frame _ s
    · exact ⟨rfl, rfl, rfl, rfl, rfl⟩
  · exact setDocumentTitle_frame _ s

/-- The pass `applyTranslation` touches neither the two module objects nor the storage
nor the network nor the centred `div`s, however it ends. -/
theorem applyTranslation_frame (env : Env) (lang : String) (s : State) :
    (applyTranslation env lang s).state.translations = s.translations ∧
    (applyTranslation env lang s).state.originalContent = s.originalContent ∧
    (applyTranslation env lang s).state.fetchLog = s.fetchLog ∧
    (applyTranslation env lang s).state.language = s.language ∧
    (applyTranslation env lang s).state.centredDivs = s.centredDivs := by
  unfold applyTranslation
  by_cases hl : lang = "zh"
  · rw [if_pos hl]
    by_cases hlen : s.originalContent.length > 0
    · simp only [hlen, if_true]
      obtain ⟨h2, h3, h4, h5, h6⟩ := updateAutoOptionText_frame env
        (forEachElement env (restoreTitle env s).originalContent (restoreTitle env s))
      rw [h2, h3, h4, h5, h6]
      exact restoreTitle_frame env s
    · simp only [hlen, if_false]
      obtain ⟨h2, h3, h4, h5, h6⟩ := updateAutoOptionText_frame env s
      exact ⟨h2, h3, h4, h5, h6⟩
  · rw [if_neg hl]
    cases s.translations.getOwn lang with
    | none => exact ⟨rfl, rfl, rfl, rfl, rfl⟩
    | some tr =>
      obtain ⟨h2, h3, h4, h5, h6⟩ := updateAutoOptionText_frame env
        (translateTitle env tr (forEachElement env tr s))
      simp only [h2, h3, h4, h5, h6]
      exact translateTitle_frame env tr (forEachElement env tr s)

/-- From the element after title block and loop to the element after the selector
update. -/
theorem translated_of_rewritten (reader : String → Option String) (e m e' : Element)
    (h1 : Rewritten reader e m)
    (h2 : e' = m ∨ (m.isAutoOption = true ∧ ∃ t, e' = { m with textContent := t })) :
    Translated reader e e' := by
  obtain ⟨hk, ht, ha, hc, hi, hr, hn⟩ := h1
  rcases h2 with h | ⟨hauto, t, h⟩
  · subst h
    exact ⟨hk, ht, ha, hc, hi, fun _ => ⟨hr, hn⟩⟩
  · subst h
    refine ⟨hk, ht, ha, hc, hi, ?_⟩
    intro hfalse
    rw [hi, hfalse] at hauto
    cases hauto

/-- The list form of `translated_of_rewritten`. -/
theorem forall₂_translated (env : Env) (reader : String → Option String)
    (l : List Element) (s : State)
    (h : List.Forall₂ (Rewritten reader) l s.elements) :
    List.Forall₂ (Translated reader) l (updateAutoOptionText env s).state.elements := by
  have hu := updateAutoOptionText_rel env s
  generalize (updateAutoOptionText env s).state.elements = l' at hu
  generalize s.elements = m at h hu
  induction h generalizing l' with
  | nil => cases hu; exact List.Forall₂.nil
  | cons hr _ ih =>
    cases hu with
    | cons hs hrest =>
      exact List.Forall₂.cons (translated_of_rewritten reader _ _ _ hr hs) (ih _ hrest)

/-- The relation between an element before and after a title write driven by `reader`. -/
theorem setDocumentTitle_rel (reader : String → Option String) (v : String) (s : State)
    (h : ∀ te, titleElement s = some te → reader te.key = some v) :
    List.Forall₂
      (fun e e' => e' = e ∨ (reader e.key = some v ∧ e' = { e with textContent := v }))
      s.elements (setDocumentTitle v s).elements := by
  rw [setDocumentTitle_elements]
  cases ht : titleElement s with
  | none => exact List.forall₂_same.mpr (fun x _ => Or.inl rfl)
  | some te =>
    simp only [Option.isSome_some, if_true]
    exact setFirstTitle_rel (fun e => reader e.key = some v) v s.elements
      (fun te' hte' => h te' hte')

theorem restoreTitle_rel (env : Env) (s : State) :
    List.Forall₂
      (fun e e' => e' = e ∨
        ∃ v, readShown env s.originalContent e.key = some v ∧ e' = { e with textContent := v })
      s.elements (restoreTitle env s).elements := by
  unfold restoreTitle
  split
  · next te ht =>
    split
    · next v hv =>
      refine (setDocumentTitle_rel (readShown env s.originalContent) v s ?_).imp ?_
      · intro te' hte'
        rw [ht] at hte'
        cases hte'
        exact hv
      · rintro e e' (h | ⟨h1, h2⟩)
        · exact Or.inl h
        · exact Or.inr ⟨v, h1, h2⟩
    · exact List.forall₂_same.mpr (fun x _ => Or.inl rfl)
  · next ht =>
    rw [setDocumentTitle_elements, ht]
    exact List.forall₂_same.mpr (fun x _ => Or.inl rfl)

theorem translateTitle_rel (env : Env) (tr : Dict) (s : State) :
    List.Forall₂
      (fun e e' => e' = e ∨
        ∃ v, readShown env tr e.key = some v ∧ e' = { e with textContent := v })
      s.elements (translateTitle env tr s).elements := by
  unfold translateTitle
  split
  · next te ht =>
    split
    · next v hv =>
      refine (setDocumentTitle_rel (readShown env tr) v s ?_).imp ?_
      · intro te' hte'
        rw [ht] at hte'
        cases hte'
        exact hv
      · rintro e e' (h | ⟨h1, h2⟩)
        · exact Or.inl h
        · exact Or.inr ⟨v, h1, h2⟩
    · exact List.forall₂_same.mpr (fun x _ => Or.inl rfl)
  · next ht =>
    rw [setDocumentTitle_elements, ht]
    exact List.forall₂_same.mpr (fun x _ => Or.inl rfl)

/-- The `zh` branch with a non-empty snapshot rewrites every tagged element from the
snapshot, whether or not the selector update at its end throws. -/
theorem applyTranslation_zh_rel (env : Env) (s : State) (hne : s.originalContent ≠ []) :
    List.Forall₂ (Translated (readShown env s.originalContent)) s.elements
      (applyTranslation env "zh" s).state.elements := by
  have hlen : s.originalContent.length > 0 := List.length_pos.mpr hne
  unfold applyTranslation
  simp only [if_true, hlen]
  apply forall₂_translated
  unfold forEachElement
  simp only
  rw [(restoreTitle_frame env s).2.1, List.forall₂_map_right_iff]
  refine (restoreTitle_rel env s).imp ?_
  rintro e e' (h | ⟨v, h1, h2⟩)
  · subst h
    exact rewritten_applyEntry _ _
  · subst h2
    exact rewritten_title_then_applyEntry _ e v h1

/-- A non-`zh` language without a loaded dictionary: `applyTranslation` does nothing. -/
theorem applyTranslation_no_dictionary (env : Env) (lang : String) (s : State)
    (hl : lang ≠ "zh") (hd : s.translations.getOwn lang = none) :
    applyTranslation env lang s = Outcome.done s := by
  unfold applyTranslation
  rw [if_neg hl, hd]

/-- A non-`zh` language with a loaded dictionary: `applyTranslation` rewrites every tagged
element from what a read of that dictionary yields, whether or not the selector update at
its end throws. -/
theorem applyTranslation_dictionary_rel (env : Env) (lang : String) (tr : Dict) (s : State)
    (hl : lang ≠ "zh") (hd : s.translations.getOwn lang = some tr) :
    List.Forall₂ (Translated (readShown env tr)) s.elements
      (applyTranslation env lang s).state.elements := by
  unfold applyTranslation
  rw [if_neg hl, hd]
  simp only
  apply forall₂_translated
  have h := translateTitle_rel env tr (forEachElement env tr s)
  unfold forEachElement at h ⊢
  simp only at h ⊢
  rw [List.forall₂_map_left_iff] at h
  refine h.imp ?_
  rintro e e' (h | ⟨v, h1, h2⟩)
  · subst h
    exact rewritten_applyEntry _ _
  · subst h2
    have hk : (applyEntry (readShown env tr) e).key = e.key :=
      (rewritten_applyEntry (readShown env tr) e).1
    rw [hk] at h1
    exact rewritten_applyEntry_then_title (readShown env tr) e v h1

/-- Position-wise transfer of a function value along a `Forall₂` fact. -/
theorem forall₂_map_eq_of_mem {α β : Type} {R : α → α → Prop} {l l' : List α} (f g : α → β)
    (h : List.Forall₂ R l l') (hfg : ∀ a ∈ l, ∀ b, R a b → g b = f a) :
    l'.map g = l.map f := by
  induction h with
  | nil => rfl
  | cons hr _ ih =>
    rw [List.map_cons, List.map_cons, hfg _ (List.mem_cons_self _ _) _ hr,
      ih (fun a ha b hab => hfg a (List.mem_cons_of_mem _ ha) b hab)]

/-- Chaining two position-wise relations. -/
theorem forall₂_comp {α : Type} {R S : α → α → Prop} {a b c : List α}
    (h1 : List.Forall₂ R a b) (h2 : List.Forall₂ S b c) :
    List.Forall₂ (fun x z => ∃ y, R x y ∧ S y z) a c := by
  induction h1 generalizing c with
  | nil => cases h2; exact List.Forall₂.nil
  | cons hr _ ih =>
    cases h2 with
    | cons hs hrest => exact List.Forall₂.cons ⟨_, hr, hs⟩ (ih hrest)

/-- Filtering both sides of a position-wise relation by a test the relation respects, and
using the test on what remains. -/
theorem forall₂_filter {α : Type} {R S : α → α → Prop} {l l' : List α} (p : α → Bool)
    (h : List.Forall₂ R l l') (hp : ∀ a b, R a b → p b = p a)
    (hS : ∀ a b, R a b → p a = true → S a b) :
    List.Forall₂ S (l.filter p) (l'.filter p) := by
  induction h with
  | nil => exact List.Forall₂.nil
  | @cons a b l l' hr _ ih =>
    rw [List.filter_cons, List.filter_cons, hp a b hr]
    by_cases hpa : p a = true
    · rw [if_pos hpa, if_pos hpa]
      exact List.Forall₂.cons (hS a b hr hpa) ih
    · rw [if_neg hpa, if_neg hpa]
      exact ih

/-- The snapshot loop: for a key other than `__proto__`, the entry is the content of the
elements carrying the key, when they all agree; otherwise the entry is what it was. -/
theorem foldl_assign_getOwn (l : List Element) (oc0 : Dict) (k c : String)
    (hk : k ≠ "__proto__")
    (hall : ∀ e ∈ l, e.key = k → readContent e = c) :
    (l.foldl (fun oc e => assignProperty oc e.key (readContent e)) oc0).getOwn k
      = if ∃ e ∈ l, e.key = k then some c else oc0.getOwn k := by
  induction l generalizing oc0 with
  | nil => simp
  | cons e es ih =>
    rw [List.foldl_cons, ih _ (fun x hx => hall x (List.mem_cons_of_mem _ hx))]
    by_cases h1 : ∃ x ∈ es, x.key = k
    · have h2 : ∃ x ∈ e :: es, x.key = k := by
        obtain ⟨x, hx, hxk⟩ := h1
        exact ⟨x, List.mem_cons_of_mem _ hx, hxk⟩
      rw [if_pos h1, if_pos h2]
    · rw [if_neg h1]
      by_cases h3 : e.key = k
      · have h2 : ∃ x ∈ e :: es, x.key = k := ⟨e, List.mem_cons_self _ _, h3⟩
        rw [assignProperty_of_ne _ _ _ (h3 ▸ hk), JsObj.getOwn_setOwn, if_pos h3, if_pos h2,
          hall e (List.mem_cons_self _ _) h3]
      · have h2 : ¬ ∃ x ∈ e :: es, x.key = k := by
          rintro ⟨x, hx, hxk⟩
          rcases List.mem_cons.mp hx with rfl | hx
          · exact h3 hxk
          · exact h1 ⟨x, hx, hxk⟩
        rw [if_neg h2]
        unfold assignProperty
        split
        · rfl
        · rw [JsObj.getOwn_setOwn, if_neg h3]

theorem foldl_assign_ne_nil (l : List Element) (oc0 : Dict) (h : oc0 ≠ []) :
    l.foldl (fun oc e => assignProperty oc e.key (readContent e)) oc0 ≠ [] := by
  induction l generalizing oc0 with
  | nil => exact h
  | cons e es ih => exact ih _ (assignProperty_ne_nil _ _ _ h)

theorem saveOriginalContent_frame (s : State) :
    (saveOriginalContent s).elements = s.elements ∧
    (saveOriginalContent s).translations = s.translations ∧
    (saveOriginalContent s).centredDivs = s.centredDivs := by
  unfold saveOriginalContent
  exact ⟨rfl, rfl, rfl⟩

/-- When no tagged element has the key `__proto__`, the snapshot is not empty. -/
theorem saveOriginalContent_ne_nil (s : State)
    (hproto : ∀ e ∈ s.elements, e.key ≠ "__proto__") :
    (saveOriginalContent s).originalContent ≠ [] := by
  unfold saveOriginalContent
  simp only
  apply foldl_assign_ne_nil
  split
  · next te ht =>
    have hte : te ∈ s.elements := List.mem_of_find?_eq_some ht
    rw [assignProperty_of_ne _ _ _ (hproto te hte)]
    exact JsObj.setOwn_ne_nil _ _ _
  · rw [assignProperty_of_ne _ _ _ (by decide)]
    exact JsObj.setOwn_ne_nil _ _ _

/-- The snapshot holds, under each key other than `__proto__`, the content of the elements
carrying that key, provided elements that share a key share their content. -/
theorem saveOriginalContent_getOwn (s : State)
    (hshare : ∀ e₁ ∈ s.elements, ∀ e₂ ∈ s.elements,
      e₁.key = e₂.key → readContent e₁ = readContent e₂)
    (e : Element) (he : e ∈ s.elements) (hk : e.key ≠ "__proto__") :
    (saveOriginalContent s).originalContent.getOwn e.key = some (readContent e) := by
  unfold saveOriginalContent
  simp only
  rw [foldl_assign_getOwn s.elements _ e.key (readContent e) hk
    (fun x hx hxk => hshare x hx e he hxk)]
  rw [if_pos ⟨e, he, rfl⟩]

theorem loadLanguageConfig_snd (env : Env) (lang : String) (s : State) :
    (loadLanguageConfig env lang s).2
      = { s with fetchLog := s.fetchLog ++ [localeUrl env lang] } := by
  unfold loadLanguageConfig
  dsimp only
  split <;> rfl

theorem loadLanguageConfig_fst_state (env : Env) (lang : String) (s s' : State) :
    (loadLanguageConfig env lang s).1 = (loadLanguageConfig env lang s').1 := by
  unfold loadLanguageConfig
  dsimp only
  split <;> rfl

theorem loadLanguageConfig_fst_of_fail (env : Env) (lang : String) (s : State)
    (hfail : ∀ d, env.fetchResponse (localeUrl env lang) ≠ FetchResult.ok d) :
    (loadLanguageConfig env lang s).1 = [] := by
  unfold loadLanguageConfig
  dsimp only
  split
  · next d h => exact absurd h (hfail d)
  · rfl
  · rfl
  · rfl

/-- Which elements count as outside the first centred `div` depends on the list of those
`div`s only. -/
theorem outsideFirstCentredDiv_congr (s t : State) (h : s.centredDivs = t.centredDivs) :
    outsideFirstCentredDiv s = outsideFirstCentredDiv t := by
  funext e
  unfold outsideFirstCentredDiv inFirstCentredDiv
  rw [h]

/-- A translated element lies outside the first centred `div` when the original does. -/
theorem outsideFirstCentredDiv_of_centredDiv (s : State) (e e' : Element)
    (h : e'.centredDiv = e.centredDiv) :
    outsideFirstCentredDiv s e' = outsideFirstCentredDiv s e := by
  unfold outsideFirstCentredDiv inFirstCentredDiv
  rw [h]

theorem loadUnlessZh_of_ne (env : Env) (cur : String) (s : State) (hcur : cur ≠ "zh") :
    (loadUnlessZh env cur s).elements = s.elements ∧
    (loadUnlessZh env cur s).fetchLog = s.fetchLog ++ [localeUrl env cur] ∧
    (loadUnlessZh env cur s).translations
      = s.translations.setOwn cur (loadLanguageConfig env cur s).1 ∧
    (loadUnlessZh env cur s).originalContent = s.originalContent ∧
    (loadUnlessZh env cur s).centredDivs = s.centredDivs := by
  unfold loadUnlessZh
  rw [if_pos hcur]
  simp [loadLanguageConfig_snd]

theorem loadUnlessZh_of_eq (env : Env) (cur : String) (s : State) (hcur : cur = "zh") :
    loadUnlessZh env cur s = s := by
  unfold loadUnlessZh
  rw [if_neg (fun h => h hcur)]

theorem updateLanguageSelect_frame (lang : String) (s : State) :
    (updateLanguageSelect lang s).state.elements = s.elements ∧
    (updateLanguageSelect lang s).state.fetchLog = s.fetchLog ∧
    (updateLanguageSelect lang s).state.translations = s.translations ∧
    (updateLanguageSelect lang s).state.centredDivs = s.centredDivs := by
  unfold updateLanguageSelect
  split
  · rw [adjustLanguageSelectWidth_state]
    exact ⟨rfl, rfl, rfl, rfl⟩
  · exact ⟨rfl, rfl, rfl, rfl⟩

/-- Removing the note removes exactly the tagged elements in the first centred `div`. -/
theorem removeExistingNote_frame (s : State) :
    (removeExistingNote s).elements = s.elements.filter (outsideFirstCentredDiv s) ∧
    (removeExistingNote s).fetchLog = s.fetchLog ∧
    (removeExistingNote s).translations = s.translations := by
  unfold removeExistingNote
  split
  · next h =>
    refine ⟨?_, rfl, rfl⟩
    symm
    rw [List.filter_eq_self]
    intro e _
    simp [outsideFirstCentredDiv, inFirstCentredDiv, h]
  · exact ⟨rfl, rfl, rfl⟩

/-- The tail of `changeLanguage` requests nothing, leaves `translations` alone and, on the
tagged elements outside the first centred `div`, does nothing, however it ends. -/
theorem finishChangeLanguage_frame (lang cur : String) (s : State) :
    (finishChangeLanguage lang cur s).state.fetchLog = s.fetchLog ∧
    (finishChangeLanguage lang cur s).state.translations = s.translations ∧
    (finishChangeLanguage lang cur s).state.elements.filter (outsideFirstCentredDiv s)
      = s.elements.filter (outsideFirstCentredDiv s) := by
  obtain ⟨he, hf, ht, hc⟩ := updateLanguageSelect_frame lang s
  unfold finishChangeLanguage
  cases hu : updateLanguageSelect lang s with
  | thrown s4 =>
    rw [hu] at he hf ht
    exact ⟨hf, ht, by rw [show (Outcome.thrown s4).state.elements = s.elements from he]⟩
  | done s4 =>
    rw [hu] at he hf ht hc
    have he4 : s4.elements = s.elements := he
    have hf4 : s4.fetchLog = s.fetchLog := hf
    have ht4 : s4.translations = s.translations := ht
    have hc4 : s4.centredDivs = s.centredDivs := hc
    obtain ⟨hre, hrf, hrt⟩ := removeExistingNote_frame s4
    have hout := outsideFirstCentredDiv_congr s4 s hc4
    have key : (removeExistingNote s4).elements.filter (outsideFirstCentredDiv s)
        = s.elements.filter (outsideFirstCentredDiv s) := by
      rw [hre, hout, he4, List.filter_filter]
      simp
    simp only
    split
    · exact ⟨by simp [Outcome.state, addAITranslationNote, hrf, hf4],
        by simp [Outcome.state, addAITranslationNote, hrt, ht4],
        by simpa [Outcome.state, addAITranslationNote] using key⟩
    · exact ⟨by simp [Outcome.state, hrf, hf4], by simp [Outcome.state, hrt, ht4],
        by simpa [Outcome.state] using key⟩

/-- What `changeLanguage` leaves, in terms of the `applyTranslation` call inside it. -/
theorem changeLanguage_state (env : Env) (lang : String) (s : State)
    (hopt : lang ∈ languageOptions) :
    (changeLanguage env lang s).state.fetchLog
      = (loadUnlessZh env (resolveLanguage env lang) { s with language := some lang }).fetchLog ∧
    (changeLanguage env lang s).state.translations
      = (loadUnlessZh env (resolveLanguage env lang)
          { s with language := some lang }).translations ∧
    (changeLanguage env lang s).state.elements.filter (outsideFirstCentredDiv s)
      = (applyTranslation env (resolveLanguage env lang)
          (loadUnlessZh env (resolveLanguage env lang)
            { s with language := some lang })).state.elements.filter
          (outsideFirstCentredDiv s) := by
  obtain ⟨ht, -, hf, -, hc⟩ := applyTranslation_frame env (resolveLanguage env lang)
    (loadUnlessZh env (resolveLanguage env lang) { s with language := some lang })
  have hc2 : (loadUnlessZh env (resolveLanguage env lang)
      { s with language := some lang }).centredDivs = s.centredDivs := by
    by_cases hz : resolveLanguage env lang = "zh"
    · rw [loadUnlessZh_of_eq env _ _ hz]
    · exact (loadUnlessZh_of_ne env _ _ hz).2.2.2.2
  unfold changeLanguage
  simp only [hopt, if_true]
  cases ha : applyTranslation env (resolveLanguage env lang)
      (loadUnlessZh env (resolveLanguage env lang) { s with language := some lang }) with
  | thrown s3 =>
    rw [ha] at ht hf
    exact ⟨hf, ht, rfl⟩
  | done s3 =>
    rw [ha] at ht hf hc
    have hf3 : s3.fetchLog = _ := hf
    have ht3 : s3.translations = _ := ht
    have hc3 : s3.centredDivs = _ := hc
    obtain ⟨h1, h2, h3⟩ := finishChangeLanguage_frame lang (resolveLanguage env lang) s3
    have hout := outsideFirstCentredDiv_congr s3 s (hc3.trans hc2)
    rw [hout] at h3
    exact ⟨h1.trans hf3, h2.trans ht3, h3⟩

/-- When the resolved language is `zh`, `changeLanguage` goes straight to
`applyTranslation('zh')` and requests nothing. -/
theorem changeLanguage_zh_fetchLog (env : Env) (lang : String) (s : State)
    (hcur : resolveLanguage env lang = "zh") :
    (changeLanguage env lang s).state.fetchLog = s.fetchLog := by
  by_cases hopt : lang ∈ languageOptions
  · rw [(changeLanguage_state env lang s hopt).1, loadUnlessZh_of_eq env _ _ hcur]
  · unfold changeLanguage
    rw [if_neg hopt]
    rfl

/-- The function `initializeTranslations` requests the dictionary of the current language
whatever that language is. -/
theorem initializeTranslations_fetchLog (env : Env) (s : State) :
    (initializeTranslations env s).state.fetchLog
      = s.fetchLog ++ [localeUrl env (getCurrentLanguage env s)] := by
  unfold initializeTranslations
  simp only
  rw [(applyTranslation_frame env _ _).2.2.1, loadLanguageConfig_snd]

/-- Position-wise reading of a `Forall₂` fact. -/
theorem forall₂_getElem? {α : Type} {R : α → α → Prop} {l l' : List α}
    (h : List.Forall₂ R l l') (i : Nat) (e : α) (he : l[i]? = some e) :
    ∃ e', l'[i]? = some e' ∧ R e e' := by
  induction h generalizing i with
  | nil => simp at he
  | cons hr _ ih =>
    cases i with
    | zero =>
      simp only [List.getElem?_cons_zero, Option.some.injEq] at he
      subst he
      exact ⟨_, by simp, hr⟩
    | succ n =>
      simp only [List.getElem?_cons_succ] at he ⊢
      exact ih n he

/-- The plain elements are those outside the first centred `div` that are not the
selector's first option. -/
theorem filter_isPlain (s : State) (l : List Element) :
    l.filter (isPlain s)
      = (l.filter (outsideFirstCentredDiv s)).filter (fun e => !e.isAutoOption) := by
  rw [List.filter_filter]
  congr 1
  funext e
  simp [isPlain, Bool.and_comm]

/-- A translated element is plain when the original is. -/
theorem isPlain_of_translated (s : State) (reader : String → Option String) (e e' : Element)
    (h : Translated reader e e') : isPlain s e' = isPlain s e := by
  unfold isPlain
  rw [outsideFirstCentredDiv_of_centredDiv s e e' h.2.2.2.1, h.2.2.2.2.1]

/-- A plain element is not the selector's first option. -/
theorem isAutoOption_of_isPlain (s : State) (e : Element) (h : isPlain s e = true) :
    e.isAutoOption = false := by
  unfold isPlain at h
  simp only [Bool.and_eq_true, Bool.not_eq_true'] at h
  exact h.2

/-- The plain tagged elements after `changeLanguage` to a language that does not resolve to
`zh`, against those before: each is rewritten from a read of the dictionary the call
fetched. -/
theorem changeLanguage_rel (env : Env) (lang : String) (s : State)
    (hopt : lang ∈ languageOptions) (hcur : resolveLanguage env lang ≠ "zh") :
    List.Forall₂
      (Rewritten (readShown env (loadLanguageConfig env (resolveLanguage env lang) s).1))
      (s.elements.filter (isPlain s))
      ((changeLanguage env lang s).state.elements.filter (isPlain s)) := by
  obtain ⟨he, -, ht, -, -⟩ :=
    loadUnlessZh_of_ne env (resolveLanguage env lang) { s with language := some lang } hcur
  have hget : (loadUnlessZh env (resolveLanguage env lang)
      { s with language := some lang }).translations.getOwn (resolveLanguage env lang)
      = some (loadLanguageConfig env (resolveLanguage env lang) s).1 := by
    rw [ht, JsObj.getOwn_setOwn, if_pos rfl,
      loadLanguageConfig_fst_state env _ { s with language := some lang } s]
  have hrel := applyTranslation_dictionary_rel env _ _ _ hcur hget
  rw [he] at hrel
  rw [filter_isPlain s (changeLanguage env lang s).state.elements,
    (changeLanguage_state env lang s hopt).2.2, ← filter_isPlain]
  refine forall₂_filter (isPlain s) hrel
    (fun a b hab => isPlain_of_translated s _ a b hab) ?_
  intro a b hab hpa
  obtain ⟨hk, ht, ha, hc, hi, hrest⟩ := hab
  obtain ⟨hr, hn⟩ := hrest (isAutoOption_of_isPlain s a hpa)
  exact ⟨hk, ht, ha, hc, hi, hr, hn⟩

theorem startsWith_zhTW (l : String) (h : startsWith l "zh-TW" = true) :
    startsWith l "zh" = true ∧ includes l "TW" = true := by
  unfold startsWith at h
  obtain ⟨t, ht⟩ := List.isPrefixOf_iff_prefix.mp h
  unfold startsWith includes
  rw [← ht]
  constructor
  · show List.isPrefixOf ['z', 'h'] ('z' :: 'h' :: '-' :: 'T' :: 'W' :: t) = true
    simp [List.isPrefixOf]
  · show includesChars ['T', 'W'] ('z' :: 'h' :: '-' :: 'T' :: 'W' :: t) = true
    simp [includesChars, List.isPrefixOf]

/-- A locale that starts with `zh-HK` starts with `zh` and contains `HK`. -/
theorem startsWith_zhHK (l : String) (h : startsWith l "zh-HK" = true) :
    startsWith l "zh" = true ∧ includes l "HK" = true := by
  unfold startsWith at h
  obtain ⟨t, ht⟩ := List.isPrefixOf_iff_prefix.mp h
  unfold startsWith includes
  rw [← ht]
  constructor
  · show List.isPrefixOf ['z', 'h'] ('z' :: 'h' :: '-' :: 'H' :: 'K' :: t) = true
    simp [List.isPrefixOf]
  · show includesChars ['H', 'K'] ('z' :: 'h' :: '-' :: 'H' :: 'K' :: t) = true
    simp [includesChars, List.isPrefixOf]

/-! ## Theme controller: properties -/

/-- C1: `toggleTheme` advances the stored theme preference along the cycle
dark → light → auto → dark: from `dark` it stores `light`, from `light` it stores `auto`,
and from `auto` or from an absent entry it stores `dark`. -/
theorem toggleTheme_cycle (env : Env) (s : State) :
    (s.theme = some "dark" → (toggleTheme env s).theme = some "light") ∧
    (s.theme = some "light" → (toggleTheme env s).theme = some "auto") ∧
    ((s.theme = some "auto" ∨ s.theme = none) → (toggleTheme env s).theme = some "dark") := by
  rw [toggleTheme_theme]
  refine ⟨?_, ?_, ?_⟩
  · intro h; simp [h]
  · intro h; simp [h]
  · rintro (h | h) <;> simp [h]

/-- Witness for C1: one concrete state per arm of the cycle. -/
theorem toggleTheme_cycle_witness :
    (toggleTheme env0 { state0 with theme := some "dark" }).theme = some "light" ∧
    (toggleTheme env0 { state0 with theme := some "light" }).theme = some "auto" ∧
    (toggleTheme env0 { state0 with theme := some "auto" }).theme = some "dark" ∧
    (toggleTheme env0 state0).theme = some "dark" :=
  ⟨(toggleTheme_cycle env0 { state0 with theme := some "dark" }).1 rfl,
   (toggleTheme_cycle env0 { state0 with theme := some "light" }).2.1 rfl,
   (toggleTheme_cycle env0 { state0 with theme := some "auto" }).2.2 (Or.inl rfl),
   (toggleTheme_cycle env0 state0).2.2 (Or.inr rfl)⟩

/-- C10: after `toggleTheme`, whatever the prior preference, root classes and OS setting,
the root carries `dark-theme` and not `light-theme` when the new preference is `dark`, or
is `auto` with the OS preferring dark; it carries `light-theme` and not `dark-theme` when
the new preference is `light`, or is `auto` with the OS not preferring dark; and one of
these two situations always obtains. -/
theorem toggleTheme_root_class (env : Env) (s : State) :
    (((toggleTheme env s).theme = some "dark" ∨
        ((toggleTheme env s).theme = some "auto" ∧ env.prefersDark = true)) →
      "dark-theme" ∈ (toggleTheme env s).rootClassList ∧
      "light-theme" ∉ (toggleTheme env s).rootClassList) ∧
    (((toggleTheme env s).theme = some "light" ∨
        ((toggleTheme env s).theme = some "auto" ∧ env.prefersDark = false)) →
      "light-theme" ∈ (toggleTheme env s).rootClassList ∧
      "dark-theme" ∉ (toggleTheme env s).rootClassList) ∧
    (((toggleTheme env s).theme = some "dark" ∨
        ((toggleTheme env s).theme = some "auto" ∧ env.prefersDark = true)) ∨
     ((toggleTheme env s).theme = some "light" ∨
        ((toggleTheme env s).theme = some "auto" ∧ env.prefersDark = false))) := by
  simp only [toggleTheme_theme, mem_toggleTheme_rootClassList]
  by_cases h1 : s.theme = some "dark"
  · simp [h1]
  · by_cases h2 : s.theme = some "light"
    · cases h3 : env.prefersDark <;> simp [h2]
    · simp [h1, h2]

/-- Witness for C10: toggling from `light` under a light OS, with both theme classes
initially on the root, and toggling from `dark`. -/
theorem toggleTheme_root_class_witness :
    ("light-theme" ∈ (toggleTheme env0
        { state0 with theme := some "light",
                      rootClassList := ["dark-theme", "light-theme"] }).rootClassList ∧
     "dark-theme" ∉ (toggleTheme env0
        { state0 with theme := some "light",
                      rootClassList := ["dark-theme", "light-theme"] }).rootClassList) ∧
    ("dark-theme" ∈ (toggleTheme env0 state0).rootClassList ∧
     "light-theme" ∉ (toggleTheme env0 state0).rootClassList) :=
  ⟨(toggleTheme_root_class env0
      { state0 with theme := some "light",
                    rootClassList := ["dark-theme", "light-theme"] }).2.1
      (Or.inr ⟨by decide, rfl⟩),
   (toggleTheme_root_class env0 state0).1 (Or.inl (by decide))⟩

/-- C7: starting from the state the page-load initialiser produces for a stored preference
among `light`, `dark`, `auto` (on a root that has no theme class yet), and with the OS
preference fixed, three successive `toggleTheme` calls restore the stored preference and
leave the root with exactly the classes it had. -/
theorem toggleTheme_three_times (env : Env) (s0 : State) (pref : String)
    (hpref : pref ∈ ["light", "dark", "auto"]) (hstored : s0.theme = some pref)
    (hdark : "dark-theme" ∉ s0.rootClassList) (hlight : "light-theme" ∉ s0.rootClassList) :
    (toggleTheme env (toggleTheme env (toggleTheme env (themeInitializer env s0)))).theme
        = (themeInitializer env s0).theme ∧
    ∀ c : String,
      c ∈ (toggleTheme env (toggleTheme env
            (toggleTheme env (themeInitializer env s0)))).rootClassList
        ↔ c ∈ (themeInitializer env s0).rootClassList := by
  have hinit_theme : (themeInitializer env s0).theme = some pref := by
    unfold themeInitializer
    dsimp only
    split_ifs <;> exact hstored
  have hne : ("dark-theme" : String) ≠ "light-theme" := by decide
  have hinit_mem : ∀ c : String, c ∈ (themeInitializer env s0).rootClassList ↔
      (c ∈ s0.rootClassList ∨
        c = (if pref = "dark" then "dark-theme" else if pref = "light" then "light-theme"
             else if env.prefersDark = true then "dark-theme" else "light-theme")) := by
    intro c
    unfold themeInitializer
    dsimp only
    rw [hstored]
    by_cases h1 : pref = "dark"
    · simp [h1, mem_classAdd]
    · by_cases h2 : pref = "light"
      · simp [h2, mem_classAdd]
      · cases h3 : env.prefersDark <;> simp [h1, h2, mem_classAdd]
  simp only [List.mem_cons, List.mem_singleton, List.not_mem_nil, or_false] at hpref
  refine ⟨?_, ?_⟩
  · simp only [toggleTheme_theme, hinit_theme]
    rcases hpref with h | h | h <;> subst h <;> simp
  · intro c
    simp only [mem_toggleTheme_rootClassList, toggleTheme_theme, hinit_theme, hinit_mem]
    have hcd : c = "dark-theme" → c ∉ s0.rootClassList := fun h => h ▸ hdark
    have hcl : c = "light-theme" → c ∉ s0.rootClassList := fun h => h ▸ hlight
    by_cases hc1 : c = "dark-theme"
    · have hc2 : c ≠ "light-theme" := by rw [hc1]; decide
      have := hcd hc1
      rcases hpref with h | h | h <;> subst h <;> cases h3 : env.prefersDark <;>
        simp [hc1, hdark]
    · by_cases hc2 : c = "light-theme"
      · have := hcl hc2
        rcases hpref with h | h | h <;> subst h <;> cases h3 : env.prefersDark <;>
          simp [hc2, hlight]
      · rcases hpref with h | h | h <;> subst h <;> cases h3 : env.prefersDark <;>
          simp [hc1, hc2]

/-- Witness for C7: stored preference `light`, an unrelated class on the root. -/
theorem toggleTheme_three_times_witness :
    (toggleTheme env0 (toggleTheme env0 (toggleTheme env0
        (themeInitializer env0
          { state0 with theme := some "light", rootClassList := ["no-js"] })))).theme
      = (themeInitializer env0
          { state0 with theme := some "light", rootClassList := ["no-js"] }).theme ∧
    ∀ c : String,
      c ∈ (toggleTheme env0 (toggleTheme env0 (toggleTheme env0
            (themeInitializer env0
              { state0 with theme := some "light",
                            rootClassList := ["no-js"] })))).rootClassList
        ↔ c ∈ (themeInitializer env0
              { state0 with theme := some "light", rootClassList := ["no-js"] }).rootClassList :=
  toggleTheme_three_times env0 { state0 with theme := some "light", rootClassList := ["no-js"] }
    "light" (by decide) rfl (by decide) (by decide)

/-! ## Localisation controller: properties -/

/-- Counterexample to C3 as stated: on `pageAutoOption` the selector's first option is a
tagged element whose key `auto_label` the loaded English dictionary lacks, yet after
`applyTranslation('en')` its text is no longer `自动`: `updateAutoOptionText` has rewritten
it. -/
theorem applyTranslation_auto_option_counterexample :
    pageAutoOption.translations.getOwn "en" = some [("greeting", "Hello")] ∧
    JsObj.getOwn [("greeting", "Hello")] "auto_label" = none ∧
    pageAutoOption.elements.map Element.textContent = ["自动", "你好"] ∧
    (applyTranslation env0 "en" pageAutoOption).state.elements.map Element.textContent
      = ["自动 (简体中文)", "Hello"] := by
  decide

/-- The other way a missing key fails to protect an element: on `pageConstructor` the loaded
English dictionary has no entry `constructor`, yet `applyTranslation('en')` replaces the
text of the element with that key by the text of the built-in function `Object`, which the
read `translation['constructor']` finds on `Object.prototype`. -/
theorem applyTranslation_constructor_key :
    pageConstructor.translations.getOwn "en" = some [("greeting", "Hello")] ∧
    JsObj.getOwn [("greeting", "Hello")] "constructor" = none ∧
    pageConstructor.elements.map Element.textContent = ["原文"] ∧
    (applyTranslation env0 "en" pageConstructor).state.elements.map Element.textContent
      = ["function Object() \x7b [native code] \x7d"] := by
  decide

/-- C3, amended: on a page whose tagged elements contain text only, for another selectable
language with a loaded dictionary, a tagged element that is not the selector's first
option and whose key is neither a key of the dictionary nor the name of a member of
`Object.prototype` is, after `applyTranslation`, the very same element at the same
position: same `textContent`, same `value`, same `aria-label`. -/
theorem applyTranslation_missing_key (env : Env) (lang : String) (tr : Dict) (s : State)
    (_hopt : lang ∈ languageOptions) (hl : lang ≠ "zh")
    (hd : s.translations.getOwn lang = some tr)
    (i : Nat) (e : Element) (he : s.elements[i]? = some e)
    (hauto : e.isAutoOption = false)
    (hown : tr.getOwn e.key = none) (hinh : inherited env e.key = none) :
    (applyTranslation env lang s).state.elements[i]? = some e := by
  obtain ⟨e', he', hrel⟩ :=
    forall₂_getElem? (applyTranslation_dictionary_rel env lang tr s hl hd) i e he
  have hread : readShown env tr e.key = none := by
    simp [readShown, readProperty, hown, hinh]
  rw [he', (hrel.2.2.2.2.2 hauto).2 hread]

/-- Witness for C3 (amended): the footer of `pageMixed`, whose key the English dictionary
lacks. -/
theorem applyTranslation_missing_key_witness :
    (applyTranslation env0 "en" pageMixed).state.elements[3]? = some (textEl "footer" "页脚") :=
  applyTranslation_missing_key env0 "en"
    [("page_title", "Address Page"), ("search", "Search"), ("close", "Close")] pageMixed
    (by decide) (by decide) (by decide) 3 (textEl "footer" "页脚") (by decide) (by decide)
    (by decide) (by decide)

/-- Counterexample to C2 as stated: on `pageDuplicate` two tagged elements share the key
`k` with texts `A` and `B`; after snapshot, English, and back to `zh`, the first element
shows `B`, not the `A` it had when the snapshot was taken. -/
theorem restore_duplicate_key_counterexample :
    (saveOriginalContent pageDuplicate).elements.map readContent = ["A", "B"] ∧
    (applyTranslation env0 "en"
      (saveOriginalContent pageDuplicate)).state.elements.map readContent = ["X", "X"] ∧
    (applyTranslation env0 "zh" (applyTranslation env0 "en"
        (saveOriginalContent pageDuplicate)).state).state.elements.map readContent
      = ["B", "B"] := by
  decide

/-- C2, amended: on a page whose tagged elements contain text only, where tagged elements
that share a key have the same content when `saveOriginalContent` runs and none has the key
`__proto__`, after the snapshot, then `applyTranslation` of another selectable language
(whatever dictionary is loaded for it), then `applyTranslation('zh')`, every tagged element
keeps its key and kind, position by position, and every tagged element other than the
selector's first option has exactly the content (`value` for inputs and text areas,
`aria-label` when present, `textContent` otherwise) it had when the snapshot was taken. -/
theorem restore_after_translation (env : Env) (lang : String) (s : State)
    (_hopt : lang ∈ languageOptions) (hl : lang ≠ "zh")
    (hshare : ∀ e₁ ∈ s.elements, ∀ e₂ ∈ s.elements,
      e₁.key = e₂.key → readContent e₁ = readContent e₂)
    (hproto : ∀ e ∈ s.elements, e.key ≠ "__proto__") :
    ((applyTranslation env "zh" (applyTranslation env lang
        (saveOriginalContent s)).state).state.elements.filter
          (fun e => !e.isAutoOption)).map readContent
      = (s.elements.filter (fun e => !e.isAutoOption)).map readContent ∧
    (applyTranslation env "zh" (applyTranslation env lang
        (saveOriginalContent s)).state).state.elements.map Element.key
      = s.elements.map Element.key ∧
    (applyTranslation env "zh" (applyTranslation env lang
        (saveOriginalContent s)).state).state.elements.map Element.tagName
      = s.elements.map Element.tagName := by
  have hoc : (applyTranslation env lang (saveOriginalContent s)).state.originalContent
      = (saveOriginalContent s).originalContent :=
    (applyTranslation_frame env lang (saveOriginalContent s)).2.1
  -- first pass: keys, kinds and the mark of the first option are kept
  have h1 : List.Forall₂
      (fun e e' => e'.key = e.key ∧ e'.tagName = e.tagName ∧ e'.isAutoOption = e.isAutoOption)
      s.elements (applyTranslation env lang (saveOriginalContent s)).state.elements := by
    cases hd : (saveOriginalContent s).translations.getOwn lang with
    | none =>
      rw [applyTranslation_no_dictionary env lang _ hl hd]
      show List.Forall₂ _ s.elements (saveOriginalContent s).elements
      rw [(saveOriginalContent_frame s).1]
      exact List.forall₂_same.mpr (fun x _ => ⟨rfl, rfl, rfl⟩)
    | some tr =>
      have h := applyTranslation_dictionary_rel env lang tr _ hl hd
      rw [(saveOriginalContent_frame s).1] at h
      exact h.imp (fun e e' hee => ⟨hee.1, hee.2.1, hee.2.2.2.2.1⟩)
  -- second pass: everything is rewritten from the snapshot
  have h2 := applyTranslation_zh_rel env (applyTranslation env lang (saveOriginalContent s)).state
    (by rw [hoc]; exact saveOriginalContent_ne_nil s hproto)
  rw [hoc] at h2
  have h3 := forall₂_comp h1 h2
  refine ⟨?_, ?_, ?_⟩
  · have h4 : List.Forall₂
        (fun a b => ∃ m, m.key = a.key ∧
          readContent b = (readShown env (saveOriginalContent s).originalContent m.key).getD
            (readContent m))
        (s.elements.filter (fun e => !e.isAutoOption))
        ((applyTranslation env "zh" (applyTranslation env lang
          (saveOriginalContent s)).state).state.elements.filter (fun e => !e.isAutoOption)) := by
      refine forall₂_filter (fun e => !e.isAutoOption) h3 ?_ ?_
      · rintro a b ⟨m, ⟨-, -, hma⟩, hmb⟩
        show (!b.isAutoOption) = (!a.isAutoOption)
        rw [hmb.2.2.2.2.1, hma]
      · rintro a b ⟨m, ⟨hmk, -, hma⟩, hmb⟩ hpa
        have hauto : m.isAutoOption = false := by
          rw [hma]
          simpa using hpa
        exact ⟨m, hmk, (hmb.2.2.2.2.2 hauto).1⟩
    refine forall₂_map_eq_of_mem readContent readContent h4 ?_
    rintro a ha b ⟨m, hmk, hmb⟩
    have ha' : a ∈ s.elements := (List.mem_filter.mp ha).1
    rw [hmb, hmk,
      readShown_of_own env _ _ _ (saveOriginalContent_getOwn s hshare a ha' (hproto a ha'))]
    rfl
  · refine forall₂_map_eq_of_mem Element.key Element.key h3 ?_
    rintro a - b ⟨m, ⟨hmk, -, -⟩, hmb⟩
    rw [hmb.1, hmk]
  · refine forall₂_map_eq_of_mem Element.tagName Element.tagName h3 ?_
    rintro a - b ⟨m, ⟨-, hmt, -⟩, hmb⟩
    rw [hmb.2.1, hmt]

/-- Witness for C2 (amended): `pageMixed` has pairwise distinct keys, none of them
`__proto__`; English, then `zh`, brings back title, input value, `aria-label` and
paragraph text. -/
theorem restore_after_translation_witness :
    ((applyTranslation env0 "zh" (applyTranslation env0 "en"
        (saveOriginalContent pageMixed)).state).state.elements.filter
          (fun e => !e.isAutoOption)).map readContent
      = (pageMixed.elements.filter (fun e => !e.isAutoOption)).map readContent :=
  (restore_after_translation env0 "en" pageMixed (by decide) (by decide) (by decide)
    (by decide)).1

/-- Counterexample to C5 as stated: on `pageGreeting`, after the snapshot and a successful
switch to English, the switch to `zh-tw` fails to load (the server answers not-OK),
`loadLanguageConfig` returns the empty dictionary, and the greeting still reads `Hello`,
not the captured default-language text. -/
theorem failed_fetch_after_switch_counterexample :
    (saveOriginalContent pageGreeting).elements.map readContent = ["你好"] ∧
    (changeLanguage envEn "en"
      (saveOriginalContent pageGreeting)).state.elements.map readContent = ["Hello"] ∧
    envEn.fetchResponse (localeUrl envEn "zh-tw") = FetchResult.notOk ∧
    (loadLanguageConfig envEn "zh-tw"
      (changeLanguage envEn "en" (saveOriginalContent pageGreeting)).state).1 = [] ∧
    (changeLanguage envEn "zh-tw"
      (changeLanguage envEn "en"
        (saveOriginalContent pageGreeting)).state).state.elements.map readContent
      = ["Hello"] := by
  decide

/-- C5, amended: on a page whose tagged elements contain text only, when the fetch for a
selectable language that does not resolve to `zh` fails (not-OK response, network error or
parse error), `loadLanguageConfig` returns the empty dictionary, `changeLanguage` stores
that empty dictionary for the language, and every tagged element that lies outside the
first centred `div`, is not the selector's first option, and whose key is not the name of
a member of `Object.prototype` is exactly what it was before the call; in particular this
holds right after `saveOriginalContent`, when the page shows the captured text. -/
theorem changeLanguage_failed_fetch (env : Env) (lang : String) (s : State)
    (hopt : lang ∈ languageOptions) (hcur : resolveLanguage env lang ≠ "zh")
    (hfail : ∀ d, env.fetchResponse (localeUrl env (resolveLanguage env lang))
      ≠ FetchResult.ok d) :
    (loadLanguageConfig env (resolveLanguage env lang) s).1 = [] ∧
    (changeLanguage env lang s).state.translations.getOwn (resolveLanguage env lang)
      = some [] ∧
    List.Forall₂ (fun e e' => inherited env e.key = none → e' = e)
      (s.elements.filter (isPlain s))
      ((changeLanguage env lang s).state.elements.filter (isPlain s)) ∧
    List.Forall₂ (fun e e' => inherited env e.key = none → e' = e)
      (s.elements.filter (isPlain s))
      ((changeLanguage env lang (saveOriginalContent s)).state.elements.filter
        (isPlain s)) := by
  have key : ∀ t : State,
      List.Forall₂ (fun e e' => inherited env e.key = none → e' = e)
        (t.elements.filter (isPlain t))
        ((changeLanguage env lang t).state.elements.filter (isPlain t)) := by
    intro t
    have hrel := changeLanguage_rel env lang t hopt hcur
    rw [loadLanguageConfig_fst_of_fail env _ t hfail] at hrel
    refine hrel.imp ?_
    intro a b hab hinh
    exact hab.2.2.2.2.2.2 (by rw [readShown_nil]; exact hinh)
  refine ⟨loadLanguageConfig_fst_of_fail env _ s hfail, ?_, key s, ?_⟩
  · rw [(changeLanguage_state env lang s hopt).2.1,
      (loadUnlessZh_of_ne env _ _ hcur).2.2.1, JsObj.getOwn_setOwn, if_pos rfl]
    exact congrArg some (loadLanguageConfig_fst_of_fail env _ _ hfail)
  · have h := key (saveOriginalContent s)
    have hp : isPlain (saveOriginalContent s) = isPlain s := by
      funext e
      unfold isPlain
      rw [outsideFirstCentredDiv_congr (saveOriginalContent s) s
        (saveOriginalContent_frame s).2.2]
    rw [hp, (saveOriginalContent_frame s).1] at h
    exact h

/-- Witness for C5 (amended): `pageNote`, Traditional Chinese missing on the server; the
greeting outside the centred `div` stays, the copy inside the `div` leaves with it, and
the element keyed `toString` is outside the guarantee. -/
theorem changeLanguage_failed_fetch_witness :
    (loadLanguageConfig envEn (resolveLanguage envEn "zh-tw") pageNote).1 = [] ∧
    (changeLanguage envEn "zh-tw" pageNote).state.translations.getOwn
      (resolveLanguage envEn "zh-tw") = some [] ∧
    List.Forall₂ (fun e e' => inherited envEn e.key = none → e' = e)
      (pageNote.elements.filter (isPlain pageNote))
      ((changeLanguage envEn "zh-tw" pageNote).state.elements.filter (isPlain pageNote)) ∧
    List.Forall₂ (fun e e' => inherited envEn e.key = none → e' = e)
      (pageNote.elements.filter (isPlain pageNote))
      ((changeLanguage envEn "zh-tw" (saveOriginalContent pageNote)).state.elements.filter
        (isPlain pageNote)) :=
  changeLanguage_failed_fetch envEn "zh-tw" pageNote (by decide) (by decide)
    (fun d h => by
      have h0 : envEn.fetchResponse (localeUrl envEn (resolveLanguage envEn "zh-tw"))
          = FetchResult.notOk := by decide
      rw [h0] at h
      cases h)

/-- Counterexample to C6 as stated: `pageCachedEn` already holds an English dictionary in
`translations`, yet `changeLanguage('en')` issues a request; the request fails here, the
cached dictionary is replaced by the empty one and is not applied. -/
theorem cached_dictionary_refetched_counterexample :
    pageCachedEn.translations.getOwn "en" = some [("greeting", "Hi")] ∧
    pageCachedEn.fetchLog = [] ∧
    (changeLanguage env0 "en" pageCachedEn).state.fetchLog = ["locales/en.json"] ∧
    (changeLanguage env0 "en" pageCachedEn).state.translations.getOwn "en" = some [] ∧
    (changeLanguage env0 "en" pageCachedEn).state.elements.map readContent = ["你好"] := by
  decide

/-- C6, amended: `changeLanguage` to a selectable language that does not resolve to `zh`
always issues exactly one request for that language's file, whatever the cache holds,
stores the dictionary that request yields (empty on failure) in place of any cached one,
and applies that dictionary: on a page whose tagged elements contain text only, each tagged
element outside the first centred `div` that is not the selector's first option gets what
a read of that dictionary under its key yields, or keeps its content when that read is
`undefined`. -/
theorem changeLanguage_always_fetches (env : Env) (lang : String) (s : State)
    (hopt : lang ∈ languageOptions) (hcur : resolveLanguage env lang ≠ "zh") :
    (changeLanguage env lang s).state.fetchLog
      = s.fetchLog ++ [localeUrl env (resolveLanguage env lang)] ∧
    (changeLanguage env lang s).state.translations.getOwn (resolveLanguage env lang)
      = some (loadLanguageConfig env (resolveLanguage env lang) s).1 ∧
    ((changeLanguage env lang s).state.elements.filter (isPlain s)).map readContent
      = (s.elements.filter (isPlain s)).map (fun e =>
          (readShown env (loadLanguageConfig env (resolveLanguage env lang) s).1 e.key).getD
            (readContent e)) := by
  obtain ⟨-, hf, ht, -, -⟩ :=
    loadUnlessZh_of_ne env (resolveLanguage env lang) { s with language := some lang } hcur
  refine ⟨?_, ?_, ?_⟩
  · rw [(changeLanguage_state env lang s hopt).1, hf]
  · rw [(changeLanguage_state env lang s hopt).2.1, ht, JsObj.getOwn_setOwn, if_pos rfl,
      loadLanguageConfig_fst_state env _ { s with language := some lang } s]
  · exact forall₂_map_eq_of_mem _ readContent (changeLanguage_rel env lang s hopt hcur)
      (fun a _ b hab => hab.2.2.2.2.2.1)

/-- Witness for C6 (amended): on `pageNote` with English on the server, the switch to
English requests the file, and of the plain elements the greeting shows `Hello` while the
one keyed `toString` shows what the read through `Object.prototype` yields. -/
theorem changeLanguage_always_fetches_witness :
    (changeLanguage envEn "en" pageNote).state.fetchLog = ["locales/en.json"] ∧
    (changeLanguage envEn "en" pageNote).state.translations.getOwn "en"
      = some [("greeting", "Hello")] ∧
    ((changeLanguage envEn "en" pageNote).state.elements.filter
        (isPlain pageNote)).map readContent
      = ["Hello", "function toString() \x7b [native code] \x7d"] :=
  changeLanguage_always_fetches envEn "en" pageNote (by decide) (by decide)

/-- C8, evaluated at the failing input: with stored preference `zh` the current language
is `zh`, `changeLanguage('zh')` requests nothing, but `initializeTranslations` requests
`locales/zh.json`. -/
theorem initializeTranslations_fetches_zh :
    getCurrentLanguage env0 pageZh = "zh" ∧
    (changeLanguage env0 "zh" pageZh).state.fetchLog = [] ∧
    (initializeTranslations env0 pageZh).state.fetchLog = ["locales/zh.json"] := by
  decide

/-- Counterexample to C4 as stated: the locale `zh-Hant-TW` starts with neither `zh-TW` nor
`zh-HK`, yet it resolves to `zh-tw`, not to `zh`. -/
theorem getSystemLanguage_zh_Hant_TW_counterexample :
    startsWith "zh-Hant-TW" "zh-TW" = false ∧
    startsWith "zh-Hant-TW" "zh-HK" = false ∧
    getSystemLanguage { env0 with browserLang := "zh-Hant-TW" } = "zh-tw" ∧
    getSystemLanguage { env0 with browserLang := "zh-Hant-TW" } ≠ "zh" := by
  decide

/-- C4, amended: `getSystemLanguage` resolves to `zh-tw` exactly when the locale starts with
`zh` and contains `TW`, `tw`, `HK` or `hk` anywhere, which covers every locale that starts
with `zh-TW` or `zh-HK`, and resolves to `zh` for every other locale; `changeLanguage('auto')`
and `getCurrentLanguage` with the preference `auto` or absent resolve to that same
language. -/
theorem getSystemLanguage_rule (env : Env) (s : State) :
    ((startsWith env.browserLang "zh-TW" = true ∨ startsWith env.browserLang "zh-HK" = true) →
      getSystemLanguage env = "zh-tw") ∧
    (getSystemLanguage env = "zh-tw" ↔
      startsWith env.browserLang "zh" = true ∧
        (includes env.browserLang "TW" = true ∨ includes env.browserLang "tw" = true ∨
         includes env.browserLang "HK" = true ∨ includes env.browserLang "hk" = true)) ∧
    (getSystemLanguage env ≠ "zh-tw" → getSystemLanguage env = "zh") ∧
    resolveLanguage env "auto" = getSystemLanguage env ∧
    ((s.language = some "auto" ∨ s.language = none) →
      getCurrentLanguage env s = getSystemLanguage env) := by
  have hne : ("zh" : String) ≠ "zh-tw" := by decide
  have hiff : getSystemLanguage env = "zh-tw" ↔
      startsWith env.browserLang "zh" = true ∧
        (includes env.browserLang "TW" = true ∨ includes env.browserLang "tw" = true ∨
         includes env.browserLang "HK" = true ∨ includes env.browserLang "hk" = true) := by
    unfold getSystemLanguage
    by_cases h1 : startsWith env.browserLang "zh" = true
    · by_cases h2 : (includes env.browserLang "TW" || includes env.browserLang "tw"
          || includes env.browserLang "HK" || includes env.browserLang "hk") = true
      · simp only [h1, h2, if_true, true_and, true_iff]
        simpa [Bool.or_eq_true, or_assoc] using h2
      · simp only [h1, h2, if_true, true_and]
        constructor
        · intro h; exact absurd h hne
        · intro h; exact absurd (by simpa [Bool.or_eq_true, or_assoc] using h) h2
    · simp only [h1]
      constructor
      · intro h; exact absurd h hne
      · intro h; exact absurd h.1 (by simp)
  refine ⟨?_, hiff, ?_, ?_, ?_⟩
  · rintro (h | h)
    · exact hiff.mpr ⟨(startsWith_zhTW _ h).1, Or.inl (startsWith_zhTW _ h).2⟩
    · exact hiff.mpr ⟨(startsWith_zhHK _ h).1, Or.inr (Or.inr (Or.inl (startsWith_zhHK _ h).2))⟩
  · intro h
    unfold getSystemLanguage at h ⊢
    dsimp only at h ⊢
    split_ifs at h ⊢ <;> first | rfl | exact absurd rfl h
  · simp [resolveLanguage]
  · rintro (h | h) <;> simp [getCurrentLanguage, h, truthy]

/-- Witness for C4 (amended): `zh-HK-u-nu-latn` starts with `zh-HK`; `en-US` is another
locale; the stored preference is absent. -/
theorem getSystemLanguage_rule_witness :
    getSystemLanguage { env0 with browserLang := "zh-HK-u-nu-latn" } = "zh-tw" ∧
    getSystemLanguage env0 = "zh" ∧
    getCurrentLanguage env0 state0 = getSystemLanguage env0 :=
  ⟨(getSystemLanguage_rule { env0 with browserLang := "zh-HK-u-nu-latn" } state0).1
      (Or.inr (by decide)),
   (getSystemLanguage_rule env0 state0).2.2.1 (by decide),
   (getSystemLanguage_rule env0 state0).2.2.2.2 (Or.inr rfl)⟩

/-- C9: auto-negotiation never yields English.  For every browser locale,
`getSystemLanguage` returns `zh` or `zh-tw`, never `en`, and for every locale that does not
start with `zh` it returns `zh`. -/
theorem getSystemLanguage_never_en (env : Env) :
    (getSystemLanguage env = "zh" ∨ getSystemLanguage env = "zh-tw") ∧
    getSystemLanguage env ≠ "en" ∧
    (startsWith env.browserLang "zh" = false → getSystemLanguage env = "zh") := by
  unfold getSystemLanguage
  dsimp only
  refine ⟨?_, ?_, ?_⟩
  · split_ifs <;> simp
  · split_ifs <;> decide
  · intro h
    simp [h]

/-- Witness for C9: the locales `en-US` and `fr`. -/
theorem getSystemLanguage_never_en_witness :
    getSystemLanguage env0 = "zh" ∧
    getSystemLanguage { env0 with browserLang := "fr" } = "zh" :=
  ⟨(getSystemLanguage_never_en env0).2.2 (by decide),
   (getSystemLanguage_never_en { env0 with browserLang := "fr" }).2.2 (by decide)⟩

end Common
